import Mathlib

/-!
Verification development for the rustcoon DICOMweb archive server.

The definitions below are shallow embeddings of the Rust source:
pure functions become Lean functions, the stateful ingest pipeline
becomes explicit state passing over a relational-store model, and the
sqlx `QueryBuilder` becomes a pair of the accumulated SQL text and the
list of bound arguments.  Byte payloads are modelled as lists of
naturals, strings as Lean strings.
-/

namespace Rustcoon

/-! ## The sqlx query builder

`sqlx::QueryBuilder` accumulates a SQL string; `push` appends raw text
to the query, `push_bind` would append a placeholder to the text and
the value to the argument list.  The search DTOs of the source only
ever call `push`. -/

structure QueryBuilder where
  sql : String
  args : List String
deriving DecidableEq

/-- `QueryBuilder::push`: append raw text to the SQL string. -/
def QueryBuilder.push (qb : QueryBuilder) (s : String) : QueryBuilder :=
  { qb with sql := qb.sql ++ s }

/-- `QueryBuilder::push_bind`: append a placeholder to the SQL string and
the value to the bound-argument list (never called by the search DTOs,
present to state what a binding would look like). -/
def QueryBuilder.push_bind (qb : QueryBuilder) (v : String) : QueryBuilder :=
  { qb with sql := qb.sql ++ "$", args := qb.args ++ [v] }

/-- The repeated pattern of `add_search_conditions` in
`studies/models/{study,series,instance}.rs`: when the optional filter
field is set, push the column prefix (ending in an opening quote), the
raw filter value, and a closing quote. -/
def pushFilter (qb : QueryBuilder) (pre : String) (v : Option String) : QueryBuilder :=
  match v with
  | some s => ((qb.push pre).push s).push "'"
  | none => qb

/-- Rust's `Vec::join(sep)`: the elements interleaved with the
separator. -/
def joinSep (sep : String) : List String → String
  | [] => ""
  | [x] => x
  | x :: xs => x ++ sep ++ joinSep sep xs

lemma joinSep_cons (sep x : String) (xs : List String) (h : xs ≠ []) :
    joinSep sep (x :: xs) = x ++ sep ++ joinSep sep xs := by
  cases xs with
  | nil => exact absurd rfl h
  | cons y t => rfl

/-- The modalities branch of `SearchStudyDto::add_search_conditions`
(study.rs lines 189-214): on the backend string "SQLite" one
`LIKE '%m%'` condition per filter member, each preceded by " AND "; on
every other backend string one `@> ARRAY['m1', 'm2', ...]::varchar[]`
condition.  Rust's `match backend.as_str()` is an equality test on the
string. -/
def pushModalities (qb : QueryBuilder) (backend : String)
    (mods : Option (List String)) : QueryBuilder :=
  if backend = "SQLite" then
    match mods with
    | some ms =>
        ms.foldl
          (fun qb m =>
            ((qb.push " AND studies_view.modalities_in_study LIKE '%").push m).push "%'")
          qb
    | none => qb
  else
    match mods with
    | some ms =>
        ((qb.push " AND studies_view.modalities_in_study @> ARRAY[").push
            (joinSep ", " (ms.map (fun m => "'" ++ m ++ "'")))).push
          "]::varchar[]"
    | none => qb

/-- `SearchStudyDto` (study.rs): the sparse study-level filter plus the
declared backend identifier. -/
structure SearchStudyDto where
  study_date : Option String := none
  study_time : Option String := none
  accession_number : Option String := none
  modalities_in_study : Option (List String) := none
  referring_physician_name : Option String := none
  patient_name : Option String := none
  patient_id : Option String := none
  study_instance_uid : Option String := none
  study_id : Option String := none
  database_backend : String := ""
deriving DecidableEq

/-- `SearchStudyDto::add_search_conditions` (study.rs lines 160-243):
the sequence of conditional pushes, in source order. -/
def SearchStudyDto.add_search_conditions (d : SearchStudyDto)
    (qb : QueryBuilder) : QueryBuilder :=
  let qb := pushFilter qb " AND studies_view.study_date = '" d.study_date
  let qb := pushFilter qb " AND studies_view.study_time = '" d.study_time
  let qb := pushFilter qb " AND studies_view.accession_number = '" d.accession_number
  let qb := pushFilter qb " AND studies_view.referring_physician_name = '"
    d.referring_physician_name
  let qb := pushModalities qb d.database_backend d.modalities_in_study
  let qb := pushFilter qb " AND studies_view.patient_name = '" d.patient_name
  let qb := pushFilter qb " AND studies_view.patient_id = '" d.patient_id
  let qb := pushFilter qb " AND studies_view.study_instance_uid = '" d.study_instance_uid
  pushFilter qb " AND studies_view.study_id = '" d.study_id

/-- `SearchSeriesDto` (series.rs): the sparse series-level filter. -/
structure SearchSeriesDto where
  modality : Option String := none
  study_instance_uid : Option String := none
  series_instance_uid : Option String := none
  series_number : Option String := none
  performed_procedure_step_start_date : Option String := none
  performed_procedure_step_start_time : Option String := none
  include_study : Bool := false
deriving DecidableEq

/-- `SearchSeriesDto::add_search_conditions` (series.rs lines 149-192). -/
def SearchSeriesDto.add_search_conditions (d : SearchSeriesDto)
    (qb : QueryBuilder) : QueryBuilder :=
  let qb := pushFilter qb " AND study_series_view.modality = '" d.modality
  let qb := pushFilter qb " AND study_series_view.series_instance_uid = '"
    d.series_instance_uid
  let qb := pushFilter qb " AND study_series_view.study_instance_uid = '"
    d.study_instance_uid
  let qb := pushFilter qb " AND study_series_view.series_number = '" d.series_number
  let qb := pushFilter qb " AND study_series_view.performed_procedure_step_start_date = '"
    d.performed_procedure_step_start_date
  pushFilter qb " AND study_series_view.performed_procedure_step_start_time = '"
    d.performed_procedure_step_start_time

/-- `SearchInstanceDto` (instance.rs): the sparse instance-level filter. -/
structure SearchInstanceDto where
  sop_instance_uid : Option String := none
  study_instance_uid : Option String := none
  series_instance_uid : Option String := none
  sop_class_uid : Option String := none
  instance_number : Option String := none
  include_study : Bool := false
  include_series : Bool := false
deriving DecidableEq

/-- `SearchInstanceDto::add_search_conditions` (instance.rs lines 152-187). -/
def SearchInstanceDto.add_search_conditions (d : SearchInstanceDto)
    (qb : QueryBuilder) : QueryBuilder :=
  let qb := pushFilter qb " AND sop_instances.sop_instance_uid = '" d.sop_instance_uid
  let qb := pushFilter qb " AND sop_instances.study_instance_uid = '" d.study_instance_uid
  let qb := pushFilter qb " AND sop_instances.series_instance_uid = '"
    d.series_instance_uid
  let qb := pushFilter qb " AND sop_instances.sop_class_uid = '" d.sop_class_uid
  pushFilter qb " AND sop_instances.instance_number = '" d.instance_number

/-- An empty query builder, as `QueryBuilder::new("")` would produce. -/
def QueryBuilder.empty : QueryBuilder := { sql := "", args := [] }

/-- SQL semantics of the modality conditions emitted by `pushModalities`.
On the "SQLite" branch one condition `modalities_in_study LIKE '%m%'` per
filter member is emitted, each following " AND ", so the compiled query
matches a row exactly when every member occurs as a substring of the
stored concatenated modality string.  On the default branch the single
emitted condition `modalities_in_study @> ARRAY[...]` holds in SQL
exactly when the stored array contains every element of the filter
array. -/
def modalitiesMatch (backend : String) (stored_string : String)
    (stored_set : List String) (ms : List String) : Bool :=
  if backend = "SQLite" then
    ms.all (fun m => decide (m.data <:+: stored_string.data))
  else
    ms.all (fun m => stored_set.contains m)

/-- Modelled from the spec: the aggregate `modalities_in_study` column of
`studies_view` (its defining SQL migration is not part of the sources)
is the comma-separated concatenation of the study's series modalities,
exactly the shape `StudyDto::from_row` parses back by splitting on
commas. -/
def storedModalitiesString : List String → String
  | [] => ""
  | [m] => m
  | m :: rest => m ++ "," ++ storedModalitiesString rest

/-! ### Helper lemmas for the query builder -/

/-- A builder transformation that only appends query text, leaving the
bound-argument list untouched; the appended text is what the
transformation produces from an empty builder. -/
def ExtendsOnly (f : QueryBuilder → QueryBuilder) : Prop :=
  ∀ qb, (f qb).sql = qb.sql ++ (f QueryBuilder.empty).sql ∧ (f qb).args = qb.args

lemma ExtendsOnly.comp {f g : QueryBuilder → QueryBuilder}
    (hf : ExtendsOnly f) (hg : ExtendsOnly g) :
    ExtendsOnly (fun qb => g (f qb)) := by
  intro qb
  obtain ⟨hs, ha⟩ := hf qb
  obtain ⟨hs2, ha2⟩ := hg (f qb)
  obtain ⟨hse, hae⟩ := hg (f QueryBuilder.empty)
  refine ⟨?_, by rw [ha2, ha]⟩
  rw [hs2, hs, hse, String.append_assoc]

lemma extendsOnly_pushFilter (pre : String) (v : Option String) :
    ExtendsOnly (fun qb => pushFilter qb pre v) := by
  intro qb
  cases v <;>
    simp [pushFilter, QueryBuilder.push, QueryBuilder.empty, String.append_assoc]

lemma foldl_like_sql (ms : List String) (qb : QueryBuilder) :
    (ms.foldl
        (fun qb m =>
          ((qb.push " AND studies_view.modalities_in_study LIKE '%").push m).push "%'")
        qb).sql =
      qb.sql ++
        (ms.foldl
            (fun qb m =>
              ((qb.push " AND studies_view.modalities_in_study LIKE '%").push m).push "%'")
            QueryBuilder.empty).sql ∧
    (ms.foldl
        (fun qb m =>
          ((qb.push " AND studies_view.modalities_in_study LIKE '%").push m).push "%'")
        qb).args = qb.args := by
  induction ms generalizing qb with
  | nil => simp [QueryBuilder.empty]
  | cons m rest ih =>
    simp only [List.foldl_cons]
    obtain ⟨ihs, iha⟩ :=
      ih (((qb.push " AND studies_view.modalities_in_study LIKE '%").push m).push "%'")
    obtain ⟨ihs2, iha2⟩ :=
      ih (((QueryBuilder.empty.push
        " AND studies_view.modalities_in_study LIKE '%").push m).push "%'")
    refine ⟨?_, by rw [iha]; rfl⟩
    rw [ihs, ihs2]
    simp [QueryBuilder.push, QueryBuilder.empty, String.append_assoc]

lemma extendsOnly_pushModalities (backend : String) (ms : Option (List String)) :
    ExtendsOnly (fun qb => pushModalities qb backend ms) := by
  intro qb
  by_cases hb : backend = "SQLite" <;> cases ms <;>
    simp only [pushModalities, hb, if_pos, if_neg, not_false_iff]
  · simp [QueryBuilder.empty]
  · exact ⟨(foldl_like_sql _ qb).1.trans (by rw [(foldl_like_sql _ QueryBuilder.empty).1]),
      (foldl_like_sql _ qb).2⟩
  · simp [QueryBuilder.empty]
  · simp [QueryBuilder.push, QueryBuilder.empty, String.append_assoc]

lemma study_extendsOnly (d : SearchStudyDto) :
    ExtendsOnly d.add_search_conditions :=
  ((((((((extendsOnly_pushFilter _ d.study_date).comp
    (extendsOnly_pushFilter _ d.study_time)).comp
    (extendsOnly_pushFilter _ d.accession_number)).comp
    (extendsOnly_pushFilter _ d.referring_physician_name)).comp
    (extendsOnly_pushModalities d.database_backend d.modalities_in_study)).comp
    (extendsOnly_pushFilter _ d.patient_name)).comp
    (extendsOnly_pushFilter _ d.patient_id)).comp
    (extendsOnly_pushFilter _ d.study_instance_uid)).comp
    (extendsOnly_pushFilter _ d.study_id)

lemma series_extendsOnly (d : SearchSeriesDto) :
    ExtendsOnly d.add_search_conditions :=
  ((((extendsOnly_pushFilter _ d.modality).comp
    (extendsOnly_pushFilter _ d.series_instance_uid)).comp
    (extendsOnly_pushFilter _ d.study_instance_uid)).comp
    (extendsOnly_pushFilter _ d.series_number)).comp
    (extendsOnly_pushFilter _ d.performed_procedure_step_start_date) |>.comp
    (extendsOnly_pushFilter _ d.performed_procedure_step_start_time)

lemma instance_extendsOnly (d : SearchInstanceDto) :
    ExtendsOnly d.add_search_conditions :=
  (((extendsOnly_pushFilter _ d.sop_instance_uid).comp
    (extendsOnly_pushFilter _ d.study_instance_uid)).comp
    (extendsOnly_pushFilter _ d.series_instance_uid)).comp
    (extendsOnly_pushFilter _ d.sop_class_uid) |>.comp
    (extendsOnly_pushFilter _ d.instance_number)

lemma extendsOnly_id : ExtendsOnly (fun qb => qb) := by
  intro qb
  exact ⟨by simp [QueryBuilder.empty], rfl⟩

lemma infix_sql_append (x : List Char) (a b : String) (h : x <:+: a.data) :
    x <:+: (a ++ b).data := by
  obtain ⟨s, t, e⟩ := h
  refine ⟨s, t ++ b.data, ?_⟩
  rw [String.data_append, ← e]
  simp [List.append_assoc]

lemma infix_sql_append_left (x : List Char) (a b : String) (h : x <:+: b.data) :
    x <:+: (a ++ b).data := by
  obtain ⟨s, t, e⟩ := h
  refine ⟨a.data ++ s, t, ?_⟩
  rw [String.data_append, ← e]
  simp [List.append_assoc]

/-- A raw value spliced by some `pushFilter` step appears verbatim in the
final SQL text, whatever text the later steps of the chain append. -/
lemma value_inlined_middle {tail : QueryBuilder → QueryBuilder}
    (ht : ExtendsOnly tail) (qb : QueryBuilder) (pre v : String) :
    v.data <:+: (tail (pushFilter qb pre (some v))).sql.data := by
  rw [(ht _).1]
  apply infix_sql_append
  refine ⟨(qb.sql ++ pre).data, "'".data, ?_⟩
  simp [pushFilter, QueryBuilder.push, String.data_append]

lemma mem_infix_foldl_like (m : String) : ∀ (ms : List String) (qb : QueryBuilder),
    m ∈ ms →
    m.data <:+:
      (ms.foldl
          (fun qb m =>
            ((qb.push " AND studies_view.modalities_in_study LIKE '%").push m).push "%'")
          qb).sql.data := by
  intro ms
  induction ms with
  | nil => intro qb h; cases h
  | cons a t ih =>
    intro qb hm
    rw [List.foldl_cons]
    rcases List.mem_cons.mp hm with h | h
    · subst h
      rw [(foldl_like_sql t _).1]
      apply infix_sql_append
      refine ⟨(qb.sql ++ " AND studies_view.modalities_in_study LIKE '%").data,
        "%'".data, ?_⟩
      simp [QueryBuilder.push, String.data_append]
    · exact ih _ h

lemma mem_infix_joinSep_quoted (m : String) : ∀ (ms : List String), m ∈ ms →
    m.data <:+: (joinSep ", " (ms.map (fun x => "'" ++ x ++ "'"))).data := by
  intro ms
  induction ms with
  | nil => intro h; cases h
  | cons a t ih =>
    intro hm
    cases t with
    | nil =>
      have hma : m = a := by simpa using hm
      subst hma
      refine ⟨"'".data, "'".data, ?_⟩
      simp [joinSep, String.data_append]
    | cons b t2 =>
      rw [List.map_cons, joinSep_cons _ _ _ (by simp)]
      rcases List.mem_cons.mp hm with h | h
      · subst h
        apply infix_sql_append
        apply infix_sql_append
        refine ⟨"'".data, "'".data, ?_⟩
        simp [String.data_append]
      · exact infix_sql_append_left _ _ _ (ih h)

/-- A modality filter member spliced by the `pushModalities` step appears
verbatim in the final SQL text on either backend branch, whatever text
the later steps of the chain append. -/
lemma modality_inlined_middle {tail : QueryBuilder → QueryBuilder}
    (ht : ExtendsOnly tail) (qb : QueryBuilder) (backend : String)
    (ms : List String) (m : String) (hm : m ∈ ms) :
    m.data <:+: (tail (pushModalities qb backend (some ms))).sql.data := by
  rw [(ht _).1]
  apply infix_sql_append
  by_cases hb : backend = "SQLite"
  · rw [pushModalities.eq_def, if_pos hb]
    exact mem_infix_foldl_like m ms qb hm
  · rw [pushModalities.eq_def, if_neg hb]
    show m.data <:+:
      (((qb.push " AND studies_view.modalities_in_study @> ARRAY[").push
          (joinSep ", " (ms.map (fun m => "'" ++ m ++ "'")))).push
        "]::varchar[]").sql.data
    simp only [QueryBuilder.push]
    exact infix_sql_append _ _ _ (infix_sql_append_left _ _ _
      (mem_infix_joinSep_quoted m ms hm))

lemma mem_infix_stored : ∀ (s : List String) (m : String), m ∈ s →
    m.data <:+: (storedModalitiesString s).data := by
  intro s
  induction s with
  | nil => intro m h; cases h
  | cons a t ih =>
    intro m hm
    cases t with
    | nil =>
      have hma : m = a := by simpa using hm
      subst hma
      simp [storedModalitiesString]
    | cons b t2 =>
      rcases List.mem_cons.mp hm with h | h
      · subst h
        exact ⟨[], ("," ++ storedModalitiesString (b :: t2)).data, by
          simp [storedModalitiesString, String.data_append]⟩
      · exact (ih m h).trans ⟨(a ++ ",").data, [], by
          simp [storedModalitiesString, String.data_append]⟩

/-- C1: the claim that the search query builder only emits bound
placeholders is false: two study filters that set the same field
(`study_date`) to different values generate different SQL strings, and
neither binds any argument. -/
theorem c1_counterexample :
    (SearchStudyDto.add_search_conditions { study_date := some "20200101" }
        QueryBuilder.empty).sql ≠
      (SearchStudyDto.add_search_conditions { study_date := some "20200102" }
        QueryBuilder.empty).sql ∧
    (SearchStudyDto.add_search_conditions { study_date := some "20200101" }
        QueryBuilder.empty).args =
      (SearchStudyDto.add_search_conditions { study_date := some "20200102" }
        QueryBuilder.empty).args := by
  constructor
  · decide
  · rfl

/-- C1 (amended): for every search (study, series or instance level) the
query builder binds no argument at all — the bound-argument list is
returned unchanged — and every set filter value is inlined verbatim into
the query text: each set single-valued filter string of each level, and
each member of a set modalities filter list, occurs as a substring of
the generated SQL text.  (Values are spliced between quotes without
escaping, so distinct filter values need not yield distinct SQL strings;
the concrete counterexample exhibits one pair of filters whose SQL does
differ while neither binds any argument.) -/
theorem c1_amended_values_inlined (ds : SearchStudyDto) (dse : SearchSeriesDto)
    (di : SearchInstanceDto) (qb : QueryBuilder) :
    ((ds.add_search_conditions qb).args = qb.args ∧
     (dse.add_search_conditions qb).args = qb.args ∧
     (di.add_search_conditions qb).args = qb.args) ∧
    (∀ v, (ds.study_date = some v ∨ ds.study_time = some v ∨
        ds.accession_number = some v ∨ ds.referring_physician_name = some v ∨
        ds.patient_name = some v ∨ ds.patient_id = some v ∨
        ds.study_instance_uid = some v ∨ ds.study_id = some v) →
      v.data <:+: (ds.add_search_conditions qb).sql.data) ∧
    (∀ ms m, ds.modalities_in_study = some ms → m ∈ ms →
      m.data <:+: (ds.add_search_conditions qb).sql.data) ∧
    (∀ v, (dse.modality = some v ∨ dse.series_instance_uid = some v ∨
        dse.study_instance_uid = some v ∨ dse.series_number = some v ∨
        dse.performed_procedure_step_start_date = some v ∨
        dse.performed_procedure_step_start_time = some v) →
      v.data <:+: (dse.add_search_conditions qb).sql.data) ∧
    (∀ v, (di.sop_instance_uid = some v ∨ di.study_instance_uid = some v ∨
        di.series_instance_uid = some v ∨ di.sop_class_uid = some v ∨
        di.instance_number = some v) →
      v.data <:+: (di.add_search_conditions qb).sql.data) := by
  refine ⟨⟨(study_extendsOnly ds qb).2, (series_extendsOnly dse qb).2,
    (instance_extendsOnly di qb).2⟩, ?_, ?_, ?_, ?_⟩
  · rintro v (h | h | h | h | h | h | h | h) <;>
      simp only [SearchStudyDto.add_search_conditions] <;> rw [h]
    · exact value_inlined_middle
        ((((((((extendsOnly_pushFilter _ ds.study_time).comp
          (extendsOnly_pushFilter _ ds.accession_number)).comp
          (extendsOnly_pushFilter _ ds.referring_physician_name)).comp
          (extendsOnly_pushModalities ds.database_backend ds.modalities_in_study)).comp
          (extendsOnly_pushFilter _ ds.patient_name)).comp
          (extendsOnly_pushFilter _ ds.patient_id)).comp
          (extendsOnly_pushFilter _ ds.study_instance_uid)).comp
          (extendsOnly_pushFilter _ ds.study_id)) _ _ v
    · exact value_inlined_middle
        (((((((extendsOnly_pushFilter _ ds.accession_number).comp
          (extendsOnly_pushFilter _ ds.referring_physician_name)).comp
          (extendsOnly_pushModalities ds.database_backend ds.modalities_in_study)).comp
          (extendsOnly_pushFilter _ ds.patient_name)).comp
          (extendsOnly_pushFilter _ ds.patient_id)).comp
          (extendsOnly_pushFilter _ ds.study_instance_uid)).comp
          (extendsOnly_pushFilter _ ds.study_id)) _ _ v
    · exact value_inlined_middle
        ((((((extendsOnly_pushFilter _ ds.referring_physician_name).comp
          (extendsOnly_pushModalities ds.database_backend ds.modalities_in_study)).comp
          (extendsOnly_pushFilter _ ds.patient_name)).comp
          (extendsOnly_pushFilter _ ds.patient_id)).comp
          (extendsOnly_pushFilter _ ds.study_instance_uid)).comp
          (extendsOnly_pushFilter _ ds.study_id)) _ _ v
    · exact value_inlined_middle
        (((((extendsOnly_pushModalities ds.database_backend
            ds.modalities_in_study).comp
          (extendsOnly_pushFilter _ ds.patient_name)).comp
          (extendsOnly_pushFilter _ ds.patient_id)).comp
          (extendsOnly_pushFilter _ ds.study_instance_uid)).comp
          (extendsOnly_pushFilter _ ds.study_id)) _ _ v
    · exact value_inlined_middle
        (((extendsOnly_pushFilter _ ds.patient_id).comp
          (extendsOnly_pushFilter _ ds.study_instance_uid)).comp
          (extendsOnly_pushFilter _ ds.study_id)) _ _ v
    · exact value_inlined_middle
        ((extendsOnly_pushFilter _ ds.study_instance_uid).comp
          (extendsOnly_pushFilter _ ds.study_id)) _ _ v
    · exact value_inlined_middle (extendsOnly_pushFilter _ ds.study_id) _ _ v
    · exact value_inlined_middle extendsOnly_id _ _ v
  · intro ms m hms hm
    simp only [SearchStudyDto.add_search_conditions]
    rw [hms]
    exact modality_inlined_middle
      ((((extendsOnly_pushFilter _ ds.patient_name).comp
        (extendsOnly_pushFilter _ ds.patient_id)).comp
        (extendsOnly_pushFilter _ ds.study_instance_uid)).comp
        (extendsOnly_pushFilter _ ds.study_id)) _ ds.database_backend ms m hm
  · rintro v (h | h | h | h | h | h) <;>
      simp only [SearchSeriesDto.add_search_conditions] <;> rw [h]
    · exact value_inlined_middle
        (((((extendsOnly_pushFilter _ dse.series_instance_uid).comp
          (extendsOnly_pushFilter _ dse.study_instance_uid)).comp
          (extendsOnly_pushFilter _ dse.series_number)).comp
          (extendsOnly_pushFilter _ dse.performed_procedure_step_start_date)).comp
          (extendsOnly_pushFilter _ dse.performed_procedure_step_start_time)) _ _ v
    · exact value_inlined_middle
        ((((extendsOnly_pushFilter _ dse.study_instance_uid).comp
          (extendsOnly_pushFilter _ dse.series_number)).comp
          (extendsOnly_pushFilter _ dse.performed_procedure_step_start_date)).comp
          (extendsOnly_pushFilter _ dse.performed_procedure_step_start_time)) _ _ v
    · exact value_inlined_middle
        (((extendsOnly_pushFilter _ dse.series_number).comp
          (extendsOnly_pushFilter _ dse.performed_procedure_step_start_date)).comp
          (extendsOnly_pushFilter _ dse.performed_procedure_step_start_time)) _ _ v
    · exact value_inlined_middle
        ((extendsOnly_pushFilter _ dse.performed_procedure_step_start_date).comp
          (extendsOnly_pushFilter _ dse.performed_procedure_step_start_time)) _ _ v
    · exact value_inlined_middle
        (extendsOnly_pushFilter _ dse.performed_procedure_step_start_time) _ _ v
    · exact value_inlined_middle extendsOnly_id _ _ v
  · rintro v (h | h | h | h | h) <;>
      simp only [SearchInstanceDto.add_search_conditions] <;> rw [h]
    · exact value_inlined_middle
        ((((extendsOnly_pushFilter _ di.study_instance_uid).comp
          (extendsOnly_pushFilter _ di.series_instance_uid)).comp
          (extendsOnly_pushFilter _ di.sop_class_uid)).comp
          (extendsOnly_pushFilter _ di.instance_number)) _ _ v
    · exact value_inlined_middle
        (((extendsOnly_pushFilter _ di.series_instance_uid).comp
          (extendsOnly_pushFilter _ di.sop_class_uid)).comp
          (extendsOnly_pushFilter _ di.instance_number)) _ _ v
    · exact value_inlined_middle
        ((extendsOnly_pushFilter _ di.sop_class_uid).comp
          (extendsOnly_pushFilter _ di.instance_number)) _ _ v
    · exact value_inlined_middle
        (extendsOnly_pushFilter _ di.instance_number) _ _ v
    · exact value_inlined_middle extendsOnly_id _ _ v

/-- C2: the claim that a study matches the modalities filter when its
modality set contains *any* filter member is false under both
representations: for stored modality set consisting of "CT" alone and
filter list ["CT", "MR"], the any-containment condition holds ("CT" is a
shared member) yet the compiled condition rejects the study on both the
substring backend and the array backend. -/
theorem c2_counterexample :
    ("CT" ∈ (["CT"] : List String)) ∧
    modalitiesMatch "SQLite" (storedModalitiesString ["CT"]) ["CT"]
        ["CT", "MR"] = false ∧
    modalitiesMatch "PostgreSQL" (storedModalitiesString ["CT"]) ["CT"]
        ["CT", "MR"] = false := by
  refine ⟨by decide, by decide, by decide⟩

/-- C2 (amended): the compiled modalities filter is all-containment, not
any-containment: on the array backend the study matches exactly when its
modality set contains every filter member, and on the substring backend
containment of every member implies a match (against the comma-separated
stored string the views aggregate). -/
theorem c2_amended_all_containment (backend : String) (s ms : List String) :
    (backend ≠ "SQLite" →
      (modalitiesMatch backend (storedModalitiesString s) s ms = true ↔
        ∀ m ∈ ms, m ∈ s)) ∧
    ((∀ m ∈ ms, m ∈ s) →
      modalitiesMatch "SQLite" (storedModalitiesString s) s ms = true) := by
  constructor
  · intro hb
    simp [modalitiesMatch, hb, List.all_eq_true]
  · intro hmem
    simp only [modalitiesMatch, if_true, List.all_eq_true, reduceIte]
    intro m hm
    simpa using mem_infix_stored s m (hmem m hm)

/-- C3: the claim that a malformed backend identifier falls through to
the substring representation is false: the fall-through branch is the
array-containment representation, as the backend string "garbage"
shows. -/
theorem c3_counterexample :
    (pushModalities QueryBuilder.empty "garbage" (some ["CT"])).sql =
        " AND studies_view.modalities_in_study @> ARRAY['CT']::varchar[]" ∧
    (pushModalities QueryBuilder.empty "garbage" (some ["CT"])).sql ≠
      (pushModalities QueryBuilder.empty "SQLite" (some ["CT"])).sql := by
  constructor
  · rfl
  · decide

/-- C3 (amended): a backend identifier other than the exact string
"SQLite" — malformed ones included — silently selects the native
array-containment representation of the modality filter, identical to
the one generated for "PostgreSQL"; this is a silent degrade, never a
failure. -/
theorem c3_amended_array_fallthrough (d : SearchStudyDto) (qb : QueryBuilder)
    (h : d.database_backend ≠ "SQLite") :
    d.add_search_conditions qb =
      SearchStudyDto.add_search_conditions
        { d with database_backend := "PostgreSQL" } qb := by
  have hmods : ∀ qb2, pushModalities qb2 d.database_backend d.modalities_in_study =
      pushModalities qb2 "PostgreSQL" d.modalities_in_study := by
    intro qb2
    rw [pushModalities.eq_def, pushModalities.eq_def, if_neg h,
      if_neg (by decide : ("PostgreSQL" : String) ≠ "SQLite")]
  simp only [SearchStudyDto.add_search_conditions, hmods]

/-- Witness for `c1_amended_values_inlined` at a concrete study filter. -/
theorem c1_amended_witness :
    (SearchStudyDto.add_search_conditions
        { study_date := some "20200101", modalities_in_study := some ["CT"] }
        QueryBuilder.empty).args = [] ∧
    "20200101".data <:+:
      (SearchStudyDto.add_search_conditions
          { study_date := some "20200101", modalities_in_study := some ["CT"] }
          QueryBuilder.empty).sql.data ∧
    "CT".data <:+:
      (SearchStudyDto.add_search_conditions
          { study_date := some "20200101", modalities_in_study := some ["CT"] }
          QueryBuilder.empty).sql.data := by
  have h := c1_amended_values_inlined
    { study_date := some "20200101", modalities_in_study := some ["CT"] } {} {}
    QueryBuilder.empty
  exact ⟨h.1.1, h.2.1 "20200101" (Or.inl rfl), h.2.2.1 ["CT"] "CT" rfl (by decide)⟩

/-- Witness for `c2_amended_all_containment` at concrete inputs. -/
theorem c2_amended_witness :
    (modalitiesMatch "PostgreSQL" (storedModalitiesString ["CT", "MR"])
        ["CT", "MR"] ["CT"] = true ↔
      ∀ m ∈ (["CT"] : List String), m ∈ (["CT", "MR"] : List String)) ∧
    modalitiesMatch "SQLite" (storedModalitiesString ["CT", "MR"])
      ["CT", "MR"] ["CT"] = true :=
  ⟨(c2_amended_all_containment "PostgreSQL" ["CT", "MR"] ["CT"]).1 (by decide),
   (c2_amended_all_containment "SQLite" ["CT", "MR"] ["CT"]).2 (by decide)⟩

/-- Witness for `c3_amended_array_fallthrough` at a concrete filter with a
malformed backend identifier. -/
theorem c3_amended_witness :
    SearchStudyDto.add_search_conditions
        { modalities_in_study := some ["CT"], database_backend := "garbage" }
        QueryBuilder.empty =
      SearchStudyDto.add_search_conditions
        { modalities_in_study := some ["CT"], database_backend := "PostgreSQL" }
        QueryBuilder.empty :=
  c3_amended_array_fallthrough _ _ (by decide)

/-! ## The multipart/related transport codec (utils/multipart.rs)

The encoder is embedded from the source.  Byte payloads and wire bytes
are modelled as Lean strings / lists of characters. -/

/-- `MultipartError` (multipart.rs lines 13-26). -/
inductive MultipartError where
  | InvalidBoundary (b : String)
  | EmptyMessage
  | StartNotFound (s : String)
  | NotMultipartRelated
deriving DecidableEq

/-- A single part of a multipart message (multipart.rs `Part`). -/
structure Part where
  content_type : String
  body : String
  content_id : Option String := none
  encoding : Option String := none
deriving DecidableEq

/-- The header lines of a part after the boundary line: the
`Content-Type` line always, then the optional `Content-ID` line (the id
wrapped in angle brackets) and the optional `Content-Transfer-Encoding`
line, in the order `Part::format_headers` pushes them. -/
def headerLines (p : Part) : List String :=
  let ls := ["Content-Type: " ++ p.content_type]
  let ls := match p.content_id with
    | some id => ls ++ ["Content-ID: <" ++ id ++ ">"]
    | none => ls
  match p.encoding with
  | some enc => ls ++ ["Content-Transfer-Encoding: " ++ enc]
  | none => ls

/-- `Part::format_headers` (multipart.rs lines 73-88): the boundary line
and the header lines joined with CRLF, then the blank line. -/
def Part.format_headers (p : Part) (boundary : String) : String :=
  joinSep "\r\n" (("--" ++ boundary) :: headerLines p) ++ "\r\n\r\n"

/-- `RelatedConfig` (multipart.rs lines 92-97). -/
structure RelatedConfig where
  boundary : String
  root_type : Option String := none
  start : Option String := none
deriving DecidableEq

/-- The boundary characters `RelatedConfig::new` rejects. -/
def invalidBoundaryChar (c : Char) : Bool :=
  c.isWhitespace || c = '"' || c = '\\'

/-- `RelatedConfig::new` (multipart.rs lines 103-114): reject a boundary
containing whitespace, a double quote or a backslash. -/
def RelatedConfig.new (boundary : String) :
    Except MultipartError RelatedConfig :=
  if boundary.data.any invalidBoundaryChar then
    .error (.InvalidBoundary boundary)
  else
    .ok { boundary := boundary }

/-- `RelatedConfig::start`: declare the starting part's content id. -/
def RelatedConfig.with_start (cfg : RelatedConfig) (content_id : String) :
    RelatedConfig :=
  { cfg with start := some content_id }

/-- `Related` (multipart.rs lines 131-134). -/
structure Related where
  config : RelatedConfig
  parts : List Part
deriving DecidableEq

/-- `Related::validate` (multipart.rs lines 151-167). -/
def Related.validate (r : Related) : Except MultipartError Unit :=
  if r.parts.isEmpty then
    .error .EmptyMessage
  else
    match r.config.start with
    | some start =>
        if r.parts.any (fun p => p.content_id == some start) then .ok ()
        else .error (.StartNotFound start)
    | none => .ok ()

/-- The byte chunks of the streamed body built by `Related::build`
(multipart.rs lines 187-211): for each part its headers, payload and a
trailing CRLF, then the closing boundary line. -/
def Related.body_chunks (r : Related) : List String :=
  r.parts.map (fun p =>
      p.format_headers r.config.boundary ++ p.body ++ "\r\n") ++
    ["--" ++ r.config.boundary ++ "--\r\n"]

/-- `Related::build`: validate, then emit the body chunks. -/
def Related.build (r : Related) : Except MultipartError (List String) :=
  match r.validate with
  | .error e => .error e
  | .ok _ => .ok r.body_chunks

/-- The wire bytes of the streamed response: the chunks concatenated. -/
def joinChunks : List String → String
  | [] => ""
  | c :: cs => c ++ joinChunks cs

/-! ### The decoder, modelled from the spec

The decode side of the codec is delegated to the external `multer`
crate, which is not part of the sources; the parser below is modelled
from the spec's decode contract and the wire format of the encoder. -/

/-- The carriage-return/line-feed pair. -/
def crlf : List Char := ['\r', '\n']

/-- The encapsulation delimiter: CRLF, two hyphens, the boundary. -/
def delim (b : String) : List Char := crlf ++ ('-' :: '-' :: b.data)

/-- Split a character stream at the first occurrence of `d`: returns the
text before the occurrence and the text after it. -/
def splitFirst (d : List Char) : List Char → Option (List Char × List Char)
  | [] => none
  | c :: rest =>
    if d.isPrefixOf (c :: rest) then some ([], (c :: rest).drop d.length)
    else
      match splitFirst d rest with
      | some (a, e) => some (c :: a, e)
      | none => none

def ctPre : List Char := "Content-Type: ".data
def idPre : List Char := "Content-ID: ".data
def encPre : List Char := "Content-Transfer-Encoding: ".data

/-- Unwrap a Content-ID value from its angle brackets. -/
def stripAngle (v : List Char) : List Char :=
  match v with
  | '<' :: rest => if rest.getLast? = some '>' then rest.dropLast else v
  | _ => v

/-- The header fields recognized while decoding one part. -/
structure HeaderAcc where
  ct : Option String := none
  id : Option String := none
  enc : Option String := none
deriving DecidableEq

/-- Modelled from the spec: record one decoded header line into the
accumulator, by its recognized name prefix. -/
def parseHeaderLine (line : List Char) (acc : HeaderAcc) : HeaderAcc :=
  if ctPre.isPrefixOf line then
    { acc with ct := some (String.mk (line.drop ctPre.length)) }
  else if idPre.isPrefixOf line then
    { acc with id := some (String.mk (stripAngle (line.drop idPre.length))) }
  else if encPre.isPrefixOf line then
    { acc with enc := some (String.mk (line.drop encPre.length)) }
  else acc

/-- Modelled from the spec: consume CRLF-terminated header lines up to
the blank line, returning the recognized headers and the remaining
bytes (the payload of the part). -/
def parseHeaderBlock (s : List Char) (acc : HeaderAcc) :
    Nat → Option (HeaderAcc × List Char)
  | 0 => none
  | fuel + 1 =>
    match splitFirst crlf s with
    | none => none
    | some (line, rest) =>
      if line = [] then some (acc, rest)
      else parseHeaderBlock rest (parseHeaderLine line acc) fuel

/-- Modelled from the spec: decode one encapsulated part — its header
block, then its payload; a part without a Content-Type header is
malformed. -/
def parseInner (inner : List Char) : Option Part :=
  match parseHeaderBlock inner {} (inner.length + 1) with
  | none => none
  | some (acc, body) =>
    match acc.ct with
    | none => none
    | some ct =>
        some { content_type := ct, body := String.mk body,
               content_id := acc.id, encoding := acc.enc }

/-- Modelled from the spec: decode the sequence of encapsulated parts
after the opening boundary line — each part runs up to the next
encapsulation delimiter, which is followed either by CRLF (a further
part follows) or by two hyphens and CRLF (the closing delimiter). -/
def parseRest (b : String) (s : List Char) : Nat → Option (List Part)
  | 0 => none
  | fuel + 1 =>
    match splitFirst (delim b) s with
    | none => none
    | some (inner, after) =>
      if crlf.isPrefixOf after then
        match parseInner inner, parseRest b (after.drop 2) fuel with
        | some p, some ps => some (p :: ps)
        | _, _ => none
      else if after = '-' :: '-' :: crlf then
        match parseInner inner with
        | some p => some [p]
        | none => none
      else none

/-- Modelled from the spec: the decode side of the multipart/related
codec (delegated to the external `multer` crate in the source): check
the opening boundary line, then pull the parts one by one. -/
def parseRelated (b : String) (stream : String) : Option (List Part) :=
  let s := stream.data
  let opening := ("--" ++ b ++ "\r\n").data
  if opening.isPrefixOf s then
    parseRest b (s.drop opening.length) (s.length + 1)
  else none

/-- No character of `s` is CR or LF. -/
def noCRLF (s : String) : Bool :=
  s.data.all (fun c => !(c = '\r' || c = '\n'))

/-- The round-trip side condition on a part's header values: no CR or LF
inside the content type, the content id or the transfer encoding. -/
def headerSafe (p : Part) : Bool :=
  noCRLF p.content_type &&
    (match p.content_id with | some i => noCRLF i | none => true) &&
    (match p.encoding with | some e => noCRLF e | none => true)

/-- The delimiter `d` has no occurrence inside `a ++ d` before position
`a.length`. -/
def noEarly (d a : List Char) : Bool :=
  (List.range a.length).all (fun i => !(d.isPrefixOf ((a ++ d).drop i)))

/-- The encoded interior of one part: its header lines joined by CRLF,
the blank line, and the payload — the bytes between the encapsulation
delimiters on the wire. -/
def innerOf (p : Part) : List Char :=
  (joinSep "\r\n" (headerLines p)).data ++ (crlf ++ crlf ++ p.body.data)

/-- The wire bytes following the opening boundary line: each part's
interior, the delimiter, then either CRLF and the next part or the
closing hyphens. -/
def restStream (b : String) : List Part → List Char
  | [] => []
  | [p] => innerOf p ++ delim b ++ ('-' :: '-' :: crlf)
  | p :: ps => innerOf p ++ delim b ++ crlf ++ restStream b ps

/-! ### Lemmas about `splitFirst` and `noEarly` -/

lemma prefix_append_of_le {p a b : List Char} (h : p <+: a ++ b)
    (hl : p.length ≤ a.length) : p <+: a := by
  rw [List.prefix_iff_eq_take] at h ⊢
  rw [List.take_append_eq_append_take, Nat.sub_eq_zero_of_le hl,
    List.take_zero, List.append_nil] at h
  exact h

lemma splitFirst_self (d r : List Char) (hd : d ≠ []) :
    splitFirst d (d ++ r) = some ([], r) := by
  match d with
  | [] => exact absurd rfl hd
  | c :: dt =>
    have hp : (c :: dt).isPrefixOf ((c :: dt) ++ r) = true :=
      List.isPrefixOf_iff_prefix.mpr (List.prefix_append _ _)
    rw [List.cons_append] at hp ⊢
    rw [splitFirst, if_pos hp, ← List.cons_append, List.drop_left]

lemma splitFirst_append (d a r : List Char) (hd : d ≠ [])
    (h : ∀ i, i < a.length → ¬ d <+: ((a ++ d).drop i)) :
    splitFirst d (a ++ (d ++ r)) = some (a, r) := by
  induction a with
  | nil => simpa using splitFirst_self d r hd
  | cons c a' ih =>
    have h0 : d.isPrefixOf (c :: (a' ++ (d ++ r))) = false := by
      rw [← Bool.not_eq_true, List.isPrefixOf_iff_prefix]
      intro hp
      apply h 0 (by simp)
      simp only [List.drop_zero]
      have hl : d.length ≤ ((c :: a') ++ d).length := by simp; omega
      have hp2 : d <+: ((c :: a') ++ d) ++ r := by
        simpa [List.append_assoc] using hp
      exact prefix_append_of_le hp2 hl
    rw [List.cons_append, splitFirst, h0]
    simp only [Bool.false_eq_true, if_false]
    have h' : ∀ i, i < a'.length → ¬ d <+: ((a' ++ d).drop i) := by
      intro i hi
      have := h (i + 1) (by simp; omega)
      simpa [List.drop_succ_cons] using this
    rw [ih h']

lemma noEarly_iff (d a : List Char) :
    noEarly d a = true ↔ ∀ i, i < a.length → ¬ d <+: ((a ++ d).drop i) := by
  simp [noEarly, List.all_eq_true, List.mem_range, Bool.not_eq_true',
    ← Bool.not_eq_true, List.isPrefixOf_iff_prefix]

lemma noEarly_of_not_mem (d a : List Char) (c : Char) (hhead : d.head? = some c)
    (hc : c ∉ a) : ∀ i, i < a.length → ¬ d <+: ((a ++ d).drop i) := by
  intro i hi hp
  obtain ⟨t, ht⟩ := hp
  have h1 : ((a ++ d).drop i).head? = some c := by
    rw [← ht]
    match d, hhead with
    | c0 :: dt, hh =>
      simp only [List.head?_cons, Option.some.injEq] at hh
      simp [hh]
  rw [List.head?_drop, List.getElem?_append, if_pos hi] at h1
  exact hc (List.getElem?_mem h1)

lemma not_prefix_of_take_ne {p a : List Char} (n : Nat) (hp : n ≤ p.length)
    (ha : n ≤ a.length) (hne : p.take n ≠ a.take n) (l : List Char) :
    ¬ p <+: a ++ l := by
  intro h
  obtain ⟨t, ht⟩ := h
  apply hne
  have h2 := congrArg (List.take n) ht
  rwa [List.take_append_eq_append_take, List.take_append_eq_append_take,
    Nat.sub_eq_zero_of_le hp, Nat.sub_eq_zero_of_le ha, List.take_zero,
    List.take_zero, List.append_nil, List.append_nil] at h2

lemma isPrefixOf_append_self (p x : List Char) : p.isPrefixOf (p ++ x) = true :=
  List.isPrefixOf_iff_prefix.mpr (List.prefix_append p x)

/-! ### Decoding one part -/

lemma parseHeaderBlock_done (body : List Char) (acc : HeaderAcc) (fuel : Nat) :
    parseHeaderBlock (crlf ++ body) acc (fuel + 1) = some (acc, body) := by
  rw [parseHeaderBlock, splitFirst_self crlf body (by decide)]
  simp

lemma parseHeaderBlock_step (line rest : List Char) (acc : HeaderAcc)
    (fuel : Nat) (hne : line ≠ []) (hcr : '\r' ∉ line) :
    parseHeaderBlock (line ++ (crlf ++ rest)) acc (fuel + 1) =
      parseHeaderBlock rest (parseHeaderLine line acc) fuel := by
  rw [parseHeaderBlock,
    splitFirst_append crlf line rest (by decide)
      (noEarly_of_not_mem crlf line '\r' rfl hcr)]
  simp [hne]

lemma not_cr_of_noCRLF (s : String) (h : noCRLF s = true) : '\r' ∉ s.data := by
  simp only [noCRLF, List.all_eq_true] at h
  intro hm
  have := h _ hm
  simp at this

lemma parseHeaderLine_ct (ct : String) (acc : HeaderAcc) :
    parseHeaderLine (ctPre ++ ct.data) acc = { acc with ct := some ct } := by
  simp only [parseHeaderLine, isPrefixOf_append_self, if_pos, List.drop_left]

lemma parseHeaderLine_id (id : String) (acc : HeaderAcc) :
    parseHeaderLine (idPre ++ ('<' :: (id.data ++ ['>']))) acc =
      { acc with id := some id } := by
  have h1 : ctPre.isPrefixOf (idPre ++ ('<' :: (id.data ++ ['>']))) = false := by
    rw [← Bool.not_eq_true, List.isPrefixOf_iff_prefix,
      show idPre ++ ('<' :: (id.data ++ ['>'])) =
        (idPre ++ ['<']) ++ (id.data ++ ['>']) by simp]
    exact not_prefix_of_take_ne 13 (by decide) (by decide) (by decide) _
  simp only [parseHeaderLine, h1, Bool.false_eq_true, if_false,
    isPrefixOf_append_self, if_pos, List.drop_left, stripAngle,
    List.getLast?_concat, if_pos rfl, List.dropLast_concat]

lemma parseHeaderLine_enc (enc : String) (acc : HeaderAcc) :
    parseHeaderLine (encPre ++ enc.data) acc = { acc with enc := some enc } := by
  have h1 : ctPre.isPrefixOf (encPre ++ enc.data) = false := by
    rw [← Bool.not_eq_true, List.isPrefixOf_iff_prefix]
    exact not_prefix_of_take_ne 14 (by decide) (by decide) (by decide) _
  have h2 : idPre.isPrefixOf (encPre ++ enc.data) = false := by
    rw [← Bool.not_eq_true, List.isPrefixOf_iff_prefix]
    exact not_prefix_of_take_ne 12 (by decide) (by decide) (by decide) _
  simp only [parseHeaderLine, h1, h2, Bool.false_eq_true, if_false,
    isPrefixOf_append_self, if_pos, List.drop_left]

lemma headerLines_ne_nil (p : Part) : headerLines p ≠ [] := by
  cases hid : p.content_id <;> cases henc : p.encoding <;>
    simp [headerLines, hid, henc]

lemma data_crlf : "\r\n".data = crlf := rfl

lemma joinSep_crlf_data (ls : List String) (h : ls ≠ []) :
    (joinSep "\r\n" ls).data ++ crlf =
      (ls.map (fun x => x.data ++ crlf)).flatten := by
  induction ls with
  | nil => exact absurd rfl h
  | cons x t ih =>
    cases t with
    | nil => simp [joinSep]
    | cons y t2 =>
      rw [joinSep_cons _ _ _ (by simp)]
      rw [List.map_cons, List.flatten_cons, ← ih (by simp)]
      simp [String.data_append, data_crlf, List.append_assoc, crlf]

lemma ctLine_data (ct : String) :
    ("Content-Type: " ++ ct).data = ctPre ++ ct.data := by
  simp [String.data_append, ctPre]

lemma idLine_data (i : String) :
    ("Content-ID: <" ++ i ++ ">").data = idPre ++ ('<' :: (i.data ++ ['>'])) := by
  simp only [String.data_append]
  rw [show (['C','o','n','t','e','n','t','-','I','D',':',' ','<'] : List Char) =
    idPre ++ ['<'] by decide]
  simp

lemma encLine_data (e : String) :
    ("Content-Transfer-Encoding: " ++ e).data = encPre ++ e.data := by
  simp [String.data_append, encPre]

lemma parseHeaderBlock_lines (ls : List String) :
    ∀ (acc : HeaderAcc) (body : List Char) (fuel : Nat),
      (∀ l ∈ ls, l.data ≠ [] ∧ '\r' ∉ l.data) → ls.length + 1 ≤ fuel →
      parseHeaderBlock ((ls.map (fun x => x.data ++ crlf)).flatten ++
          (crlf ++ body)) acc fuel =
        some (ls.foldl (fun a x => parseHeaderLine x.data a) acc, body) := by
  induction ls with
  | nil =>
    intro acc body fuel _ hf
    obtain ⟨f, rfl⟩ : ∃ f, fuel = f + 1 := ⟨fuel - 1, by omega⟩
    simpa using parseHeaderBlock_done body acc f
  | cons l t ih =>
    intro acc body fuel hl hf
    obtain ⟨f, rfl⟩ : ∃ f, fuel = f + 1 := ⟨fuel - 1, by omega⟩
    rw [List.map_cons, List.flatten_cons]
    simp only [List.append_assoc]
    rw [parseHeaderBlock_step l.data _ acc f (hl l (by simp)).1
      (hl l (by simp)).2]
    rw [List.foldl_cons]
    exact ih _ body f (fun x hx => hl x (by simp [hx])) (by simp at hf ⊢; omega)

lemma innerOf_eq (p : Part) :
    innerOf p = ((headerLines p).map (fun x => x.data ++ crlf)).flatten ++
      (crlf ++ p.body.data) := by
  rw [innerOf, ← joinSep_crlf_data _ (headerLines_ne_nil p)]
  simp [List.append_assoc]

lemma flatten_crlf_length (ls : List String) :
    ls.length ≤ ((ls.map (fun x => x.data ++ crlf)).flatten).length := by
  induction ls with
  | nil => simp
  | cons x t ih =>
    rw [List.map_cons, List.flatten_cons, List.length_cons, List.length_append]
    have h2 : 1 ≤ (x.data ++ crlf).length := by simp [crlf]
    omega

lemma headerLines_cond (p : Part) (hs : headerSafe p = true) :
    ∀ l ∈ headerLines p, l.data ≠ [] ∧ '\r' ∉ l.data := by
  have hct : noCRLF p.content_type = true := by
    simp [headerSafe, Bool.and_eq_true] at hs; exact hs.1.1
  intro l hl
  cases hid : p.content_id <;> cases henc : p.encoding <;>
    simp only [headerLines, hid, henc, List.append_nil, List.cons_append,
      List.nil_append, List.mem_cons, List.mem_singleton,
      List.not_mem_nil, or_false, List.mem_append] at hl
  case none.none =>
    subst hl
    rw [ctLine_data]
    refine ⟨by simp [ctPre], ?_⟩
    intro hm
    rcases List.mem_append.mp hm with h1 | h1
    · exact absurd h1 (by decide)
    · exact not_cr_of_noCRLF _ hct h1
  case none.some e =>
    have he : noCRLF e = true := by
      simp [headerSafe, hid, henc, Bool.and_eq_true] at hs; exact hs.2
    rcases hl with hl | hl <;> subst hl
    · rw [ctLine_data]
      refine ⟨by simp [ctPre], ?_⟩
      intro hm
      rcases List.mem_append.mp hm with h1 | h1
      · exact absurd h1 (by decide)
      · exact not_cr_of_noCRLF _ hct h1
    · rw [encLine_data]
      refine ⟨by simp [encPre], ?_⟩
      intro hm
      rcases List.mem_append.mp hm with h1 | h1
      · exact absurd h1 (by decide)
      · exact not_cr_of_noCRLF _ he h1
  case some.none i =>
    have hi : noCRLF i = true := by
      simp [headerSafe, hid, henc, Bool.and_eq_true] at hs; exact hs.2
    rcases hl with hl | hl <;> subst hl
    · rw [ctLine_data]
      refine ⟨by simp [ctPre], ?_⟩
      intro hm
      rcases List.mem_append.mp hm with h1 | h1
      · exact absurd h1 (by decide)
      · exact not_cr_of_noCRLF _ hct h1
    · rw [idLine_data]
      refine ⟨by simp [idPre], ?_⟩
      intro hm
      rcases List.mem_append.mp hm with h1 | h1
      · exact absurd h1 (by decide)
      · rcases List.mem_cons.mp h1 with h2 | h2
        · exact absurd h2 (by decide)
        · rcases List.mem_append.mp h2 with h3 | h3
          · exact not_cr_of_noCRLF _ hi h3
          · exact absurd h3 (by decide)
  case some.some i e =>
    have hie : noCRLF i = true ∧ noCRLF e = true := by
      simp [headerSafe, hid, henc, Bool.and_eq_true] at hs
      exact ⟨hs.1.2, hs.2⟩
    rcases hl with hl | hl | hl <;> subst hl
    · rw [ctLine_data]
      refine ⟨by simp [ctPre], ?_⟩
      intro hm
      rcases List.mem_append.mp hm with h1 | h1
      · exact absurd h1 (by decide)
      · exact not_cr_of_noCRLF _ hct h1
    · rw [idLine_data]
      refine ⟨by simp [idPre], ?_⟩
      intro hm
      rcases List.mem_append.mp hm with h1 | h1
      · exact absurd h1 (by decide)
      · rcases List.mem_cons.mp h1 with h2 | h2
        · exact absurd h2 (by decide)
        · rcases List.mem_append.mp h2 with h3 | h3
          · exact not_cr_of_noCRLF _ hie.1 h3
          · exact absurd h3 (by decide)
    · rw [encLine_data]
      refine ⟨by simp [encPre], ?_⟩
      intro hm
      rcases List.mem_append.mp hm with h1 | h1
      · exact absurd h1 (by decide)
      · exact not_cr_of_noCRLF _ hie.2 h1

lemma parseInner_innerOf (p : Part) (hs : headerSafe p = true) :
    parseInner (innerOf p) = some p := by
  have hfold : (headerLines p).foldl (fun a x => parseHeaderLine x.data a)
      {} = { ct := some p.content_type, id := p.content_id,
             enc := p.encoding } := by
    cases hid : p.content_id <;> cases henc : p.encoding <;>
      simp only [headerLines, hid, henc, List.append_nil, List.cons_append,
        List.nil_append, List.foldl_cons, List.foldl_nil]
    case none.none =>
      rw [ctLine_data, parseHeaderLine_ct]
    case none.some e =>
      rw [ctLine_data, parseHeaderLine_ct, encLine_data, parseHeaderLine_enc]
    case some.none i =>
      rw [ctLine_data, parseHeaderLine_ct, idLine_data, parseHeaderLine_id]
    case some.some i e =>
      rw [ctLine_data, parseHeaderLine_ct, idLine_data, parseHeaderLine_id,
        encLine_data, parseHeaderLine_enc]
  have hlen : (headerLines p).length + 1 ≤ (innerOf p).length + 1 := by
    rw [innerOf_eq, List.length_append]
    have := flatten_crlf_length (headerLines p)
    omega
  rw [parseInner, innerOf_eq]
  rw [parseHeaderBlock_lines (headerLines p) {} p.body.data _
    (headerLines_cond p hs) (by rw [← innerOf_eq]; exact hlen)]
  rw [hfold]

/-! ### Decoding the part sequence -/

lemma delim_ne_nil (b : String) : delim b ≠ [] := by simp [delim, crlf]

lemma parseRest_single (b : String) (inner : List Char) (fuel : Nat)
    (hno : ∀ i, i < inner.length → ¬ delim b <+: ((inner ++ delim b).drop i)) :
    parseRest b (inner ++ (delim b ++ ('-' :: '-' :: crlf))) (fuel + 1) =
      match parseInner inner with
      | some p => some [p]
      | none => none := by
  rw [parseRest, splitFirst_append (delim b) inner _ (delim_ne_nil b) hno]
  simp [show crlf.isPrefixOf ('-' :: '-' :: crlf) = false from by decide]

lemma parseRest_cons (b : String) (inner rest : List Char) (fuel : Nat)
    (hno : ∀ i, i < inner.length → ¬ delim b <+: ((inner ++ delim b).drop i)) :
    parseRest b (inner ++ (delim b ++ (crlf ++ rest))) (fuel + 1) =
      match parseInner inner, parseRest b rest fuel with
      | some p, some ps => some (p :: ps)
      | _, _ => none := by
  rw [parseRest, splitFirst_append (delim b) inner _ (delim_ne_nil b) hno]
  simp [isPrefixOf_append_self, crlf]

lemma restStream_length (b : String) : ∀ parts : List Part,
    parts.length ≤ (restStream b parts).length := by
  intro parts
  induction parts with
  | nil => simp [restStream]
  | cons p t ih =>
    cases t with
    | nil => simp [restStream, delim, crlf]; omega
    | cons q t2 =>
      have h2 : crlf.length = 2 := rfl
      simp only [restStream]
      simp only [List.length_append, List.length_cons]
      simp only [List.length_cons] at ih
      omega

lemma parseRest_restStream (b : String) : ∀ (parts : List Part) (fuel : Nat),
    parts ≠ [] →
    (∀ p ∈ parts, parseInner (innerOf p) = some p) →
    (∀ p ∈ parts, noEarly (delim b) (innerOf p) = true) →
    parts.length + 1 ≤ fuel →
    parseRest b (restStream b parts) fuel = some parts := by
  intro parts
  induction parts with
  | nil => intro fuel h; exact absurd rfl h
  | cons p t ih =>
    intro fuel _ hp hno hf
    obtain ⟨f, rfl⟩ : ∃ f, fuel = f + 1 := ⟨fuel - 1, by omega⟩
    cases t with
    | nil =>
      simp only [restStream, List.append_assoc]
      rw [parseRest_single b (innerOf p) f
        ((noEarly_iff _ _).mp (hno p (by simp)))]
      rw [hp p (by simp)]
    | cons q t2 =>
      simp only [restStream, List.append_assoc]
      rw [parseRest_cons b (innerOf p) _ f
        ((noEarly_iff _ _).mp (hno p (by simp)))]
      rw [hp p (by simp),
        ih f (by simp) (fun x hx => hp x (by simp [hx]))
          (fun x hx => hno x (by simp [hx])) (by simp at hf ⊢; omega)]

/-! ### The encoded stream decomposed -/

lemma data_crlf2 : "\r\n\r\n".data = crlf ++ crlf := by decide

lemma data_dashdash : "--".data = ['-', '-'] := rfl

lemma chunk_data (p : Part) (b : String) :
    (p.format_headers b ++ p.body ++ "\r\n").data =
      ("--" ++ b ++ "\r\n").data ++ (innerOf p ++ crlf) := by
  rw [Part.format_headers, joinSep_cons _ _ _ (headerLines_ne_nil p)]
  simp [innerOf, String.data_append, List.append_assoc, data_crlf,
    data_crlf2, data_dashdash, crlf]

lemma body_data (cfg : RelatedConfig) : ∀ (parts : List Part), parts ≠ [] →
    (joinChunks (Related.body_chunks ⟨cfg, parts⟩)).data =
      ("--" ++ cfg.boundary ++ "\r\n").data ++
        restStream cfg.boundary parts := by
  intro parts
  induction parts with
  | nil => intro h; exact absurd rfl h
  | cons p t ih =>
    intro _
    cases t with
    | nil =>
      show (joinChunks ([p].map _ ++ _)).data = _
      simp only [List.map_cons, List.map_nil, List.nil_append,
        List.cons_append, joinChunks]
      rw [String.data_append, chunk_data]
      simp [restStream, delim, String.data_append, data_crlf,
        data_dashdash, crlf, List.append_assoc]
    | cons q t2 =>
      have hsplit : Related.body_chunks ⟨cfg, p :: q :: t2⟩ =
          (p.format_headers cfg.boundary ++ p.body ++ "\r\n") ::
            Related.body_chunks ⟨cfg, q :: t2⟩ := by
        simp [Related.body_chunks]
      rw [hsplit]
      show ((p.format_headers cfg.boundary ++ p.body ++ "\r\n") ++
        joinChunks (Related.body_chunks ⟨cfg, q :: t2⟩)).data = _
      rw [String.data_append, ih (by simp), chunk_data]
      simp [restStream, delim, String.data_append, data_crlf, data_dashdash,
        crlf, List.append_assoc]

/-- A part whose payload embeds the encapsulation delimiter of the
boundary "b" followed by a further header block. -/
def collidingPart : Part :=
  { content_type := "t", body := "x\r\n--b\r\nContent-Type: t\r\n\r\ny" }

/-- The one-part message around `collidingPart`. -/
def collidingRelated : Related :=
  { config := { boundary := "b" }, parts := [collidingPart] }

/-- C4: the round-trip claim is false as stated for payloads containing
the encapsulation delimiter: with the valid boundary "b" and one part
whose payload embeds the delimiter followed by a header block, the
encoded stream decodes into two parts, not the original one. -/
theorem c4_counterexample :
    RelatedConfig.new "b" = .ok { boundary := "b" } ∧
    Related.build collidingRelated = .ok collidingRelated.body_chunks ∧
    parseRelated "b" (joinChunks collidingRelated.body_chunks) =
      some [{ content_type := "t", body := "x" },
            { content_type := "t", body := "y" }] ∧
    ([{ content_type := "t", body := "x" },
      { content_type := "t", body := "y" }] : List Part) ≠
      [collidingPart] := by
  exact ⟨rfl, rfl, by decide, by decide⟩

/-- C4 (amended): for every sequence of N ≥ 1 parts and every valid
boundary, provided each part's header values are free of CR and LF and
the encapsulation delimiter does not occur inside any encoded part,
building the multipart/related stream succeeds and decoding it yields
back the same parts in the same order, with identical content type,
content id and payload bytes. -/
theorem c4_roundtrip (b : String) (cfg : RelatedConfig) (parts : List Part)
    (hb : RelatedConfig.new b = .ok cfg)
    (hne : parts ≠ [])
    (hsafe : ∀ p ∈ parts, headerSafe p = true)
    (hinner : ∀ p ∈ parts, noEarly (delim b) (innerOf p) = true) :
    Related.build ⟨cfg, parts⟩ = .ok (Related.body_chunks ⟨cfg, parts⟩) ∧
    parseRelated b (joinChunks (Related.body_chunks ⟨cfg, parts⟩)) =
      some parts := by
  have hcfg : cfg = { boundary := b } := by
    rw [RelatedConfig.new] at hb
    by_cases hbad : b.data.any invalidBoundaryChar
    · rw [if_pos hbad] at hb; cases hb
    · rw [if_neg hbad] at hb; cases hb; rfl
  subst hcfg
  constructor
  · have hv : Related.validate ⟨{ boundary := b }, parts⟩ = .ok () := by
      simp [Related.validate, hne]
    rw [Related.build, hv]
  · have hd := body_data { boundary := b } parts hne
    simp only [parseRelated]
    rw [hd, List.drop_left]
    simp only [isPrefixOf_append_self, if_true]
    apply parseRest_restStream b parts _ hne
      (fun p hp => parseInner_innerOf p (hsafe p hp)) hinner
    have := restStream_length b parts
    rw [List.length_append]
    omega

/-- A well-behaved sample part. -/
def samplePart : Part :=
  { content_type := "application/dicom", body := "PAYLOAD",
    content_id := some "cid1" }

/-- The one-part message around `samplePart` with boundary "bnd". -/
def sampleRelated : Related :=
  { config := { boundary := "bnd" }, parts := [samplePart] }

/-- Witness for `c4_roundtrip` at a concrete one-part message. -/
theorem c4_roundtrip_witness :
    Related.build sampleRelated = .ok sampleRelated.body_chunks ∧
    parseRelated "bnd" (joinChunks sampleRelated.body_chunks) =
      some [samplePart] :=
  c4_roundtrip "bnd" { boundary := "bnd" } [samplePart] rfl
    (by decide) (by decide) (by decide)

/-- C5: the multipart/related builder fails exactly as the claim lists:
`InvalidBoundary` at configuration construction exactly when the
boundary holds whitespace, a double quote or a backslash; `EmptyMessage`
exactly when the part list is empty; `StartNotFound` exactly when a
declared start content id matches no part; otherwise the build
succeeds. -/
theorem c5_build_failure_cases (b : String) (st : Option String)
    (parts : List Part) :
    (RelatedConfig.new b = .error (.InvalidBoundary b) ↔
      b.data.any invalidBoundaryChar = true) ∧
    ((∃ cfg, RelatedConfig.new b = .ok cfg) ↔
      b.data.any invalidBoundaryChar = false) ∧
    (∀ cfg, RelatedConfig.new b = .ok cfg →
      (Related.build ⟨{ cfg with start := st }, parts⟩ =
          .error .EmptyMessage ↔ parts = []) ∧
      (∀ s, Related.build ⟨{ cfg with start := st }, parts⟩ =
          .error (.StartNotFound s) ↔
        (parts ≠ [] ∧ st = some s ∧ ∀ p ∈ parts, p.content_id ≠ some s)) ∧
      ((∃ chunks, Related.build ⟨{ cfg with start := st }, parts⟩ =
          .ok chunks) ↔
        (parts ≠ [] ∧ ∀ s, st = some s →
          ∃ p ∈ parts, p.content_id = some s))) := by
  refine ⟨?_, ?_, ?_⟩
  · rw [RelatedConfig.new]
    by_cases h : b.data.any invalidBoundaryChar <;> simp [h]
  · rw [RelatedConfig.new]
    by_cases h : b.data.any invalidBoundaryChar <;> simp [h]
  · intro cfg _
    by_cases hp : parts = []
    · subst hp
      simp [Related.build, Related.validate]
    · cases hst : st with
      | none =>
        simp [Related.build, Related.validate, hp, hst]
      | some s0 =>
        by_cases hany : parts.any (fun p => p.content_id == some s0)
        · have hex : ∃ p ∈ parts, p.content_id = some s0 := by
            simpa [List.any_eq_true] using hany
          have hbuild : Related.build ⟨{ cfg with start := some s0 }, parts⟩ =
              .ok (Related.body_chunks ⟨{ cfg with start := some s0 }, parts⟩) := by
            have hv : Related.validate ⟨{ cfg with start := some s0 }, parts⟩ =
                .ok () := by
              simp [Related.validate, hp, hany]
            rw [Related.build, hv]
          refine ⟨by rw [hbuild]; simp [hp], ?_, ?_⟩
          · intro s
            rw [hbuild]
            simp only [hp, ne_eq, not_false_iff, true_and]
            constructor
            · intro h; cases h
            · rintro ⟨hss, hall⟩
              obtain rfl : s0 = s := by simpa using hss
              obtain ⟨p, hmem, hid⟩ := hex
              exact absurd hid (hall p hmem)
          · rw [hbuild]
            constructor
            · intro _
              refine ⟨hp, ?_⟩
              intro s hs
              obtain rfl : s0 = s := by simpa using hs
              exact hex
            · intro _
              exact ⟨_, rfl⟩
        · have hnex : ∀ p ∈ parts, p.content_id ≠ some s0 := by
            simpa [List.any_eq_true] using hany
          have hbuild : Related.build ⟨{ cfg with start := some s0 }, parts⟩ =
              .error (.StartNotFound s0) := by
            have hv : Related.validate ⟨{ cfg with start := some s0 }, parts⟩ =
                .error (.StartNotFound s0) := by
              simp [Related.validate, hp, hany]
            rw [Related.build, hv]
          refine ⟨by rw [hbuild]; simp [hp], ?_, ?_⟩
          · intro s
            rw [hbuild]
            constructor
            · intro h
              obtain rfl : s0 = s := by simpa using h
              exact ⟨hp, rfl, hnex⟩
            · rintro ⟨-, hss, -⟩
              obtain rfl : s0 = s := by simpa using hss
              rfl
          · rw [hbuild]
            constructor
            · rintro ⟨c, hc⟩
              cases hc
            · rintro ⟨-, hall⟩
              obtain ⟨p, hmem, hid⟩ := hall s0 rfl
              exact absurd hid (hnex p hmem)

/-- Witness for `c5_build_failure_cases` at a concrete start id that no
part declares. -/
theorem c5_witness :
    Related.build ⟨{ boundary := "bnd", start := some "x" },
        [{ content_type := "t", body := "y" }]⟩ =
      .error (.StartNotFound "x") :=
  (((c5_build_failure_cases "bnd" (some "x")
      [{ content_type := "t", body := "y" }]).2.2 { boundary := "bnd" }
      rfl).2.1 "x").mpr ⟨by decide, rfl, by decide⟩

/-! ## Pixel-data frame extraction (services/retrieve/pixeldata.rs)

Byte buffers are lists of naturals.  The code reports frame errors as
`StudiesServiceError::Other` with a message string: "Frame i offset not
found" and "Frame i not found" encode the frame-not-found kind, and
"Invalid frame range" / "Frame i out of range" encode the
invalid-frame-range kind. -/

/-- `StudiesServiceError` (studies/error.rs), the payloads of the
foreign error types reduced to strings. -/
inductive StudiesServiceError where
  | DatabaseFailure
  | DicomJsonError
  | DicomRenderError
  | FileReadFailure
  | NotFound
  | Other (msg : String)
deriving DecidableEq

/-- `RawPixelData` (from the dicom-rs encoding adapters): the fragment
sequence and the basic offset table. -/
structure RawPixelData where
  offset_table : List Nat
  fragments : List (List Nat)
deriving DecidableEq

/-- Rust's `slice.get(start..end)`: the subslice when the range is valid
(`start ≤ end ≤ len`), `None` otherwise. -/
def sliceGet (l : List Nat) (s e : Nat) : Option (List Nat) :=
  if s ≤ e ∧ e ≤ l.length then some ((l.drop s).take (e - s)) else none

/-- The `None`-index loop of `extract_frames_from_raw_pixel_data`
(pixeldata.rs lines 56-78), as structural recursion over the offset
table: frame `idx` spans from the current offset to the next one, the
final frame ending at the buffer length; an out-of-buffer range stops
the loop with the "out of range" error. -/
def framesAux (full : List Nat) (idx : Nat) :
    List Nat → Except StudiesServiceError (List (List Nat))
  | [] => .ok []
  | [start] =>
    match sliceGet full start full.length with
    | none => .error (.Other ("Frame " ++ toString idx ++ " out of range"))
    | some s => .ok [s]
  | start :: next :: rest =>
    match sliceGet full start next with
    | none => .error (.Other ("Frame " ++ toString idx ++ " out of range"))
    | some s => (framesAux full (idx + 1) (next :: rest)).map (s :: ·)

/-- `extract_frames_from_raw_pixel_data` (pixeldata.rs lines 24-86). -/
def extract_frames_from_raw_pixel_data (raw : RawPixelData)
    (frame_index : Option Nat) :
    Except StudiesServiceError (List (List Nat)) :=
  let offsets := raw.offset_table
  let full_data := raw.fragments.flatten
  match frame_index with
  | some index =>
    if offsets ≠ [] then
      match offsets[index]? with
      | none =>
          .error (.Other ("Frame " ++ toString index ++ " offset not found"))
      | some start =>
        match sliceGet full_data start
            ((offsets[index + 1]?).getD full_data.length) with
        | none => .error (.Other "Invalid frame range")
        | some slice => .ok [slice]
    else
      match raw.fragments[index]? with
      | none => .error (.Other ("Frame " ++ toString index ++ " not found"))
      | some frame => .ok [frame]
  | none =>
    if offsets ≠ [] then framesAux full_data 0 offsets
    else .ok raw.fragments

/-- Frame `j`'s byte slice under the offset table: from `offsets[j]` to
`offsets[j+1]`, the final frame ending at the buffer length. -/
def frameSlice (full offs : List Nat) (j : Nat) : List Nat :=
  let s := offs.getD j 0
  let e := (offs[j + 1]?).getD full.length
  (full.drop s).take (e - s)

/-- Frame `j`'s computed byte range lies inside the buffer. -/
def frameRangeOk (full offs : List Nat) (j : Nat) : Bool :=
  decide (offs.getD j 0 ≤ (offs[j + 1]?).getD full.length) &&
    decide ((offs[j + 1]?).getD full.length ≤ full.length)

/-- The spec's worked example: fragments "AAAA", "BBBB", "CCCC" (as byte
values) with offset table [0, 4, 8]. -/
def exampleRaw : RawPixelData :=
  { offset_table := [0, 4, 8],
    fragments := [[65, 65, 65, 65], [66, 66, 66, 66], [67, 67, 67, 67]] }

lemma frameRangeOk_cons (full : List Nat) (a : Nat) (offs : List Nat)
    (j : Nat) : frameRangeOk full (a :: offs) (j + 1) =
      frameRangeOk full offs j := by
  simp [frameRangeOk, List.getD_cons_succ, List.getElem?_cons_succ]

lemma frameSlice_cons (full : List Nat) (a : Nat) (offs : List Nat)
    (j : Nat) : frameSlice full (a :: offs) (j + 1) =
      frameSlice full offs j := by
  simp [frameSlice, List.getD_cons_succ, List.getElem?_cons_succ]

lemma sliceGet_rangeOk (full offs : List Nat) (j s : Nat)
    (hj : offs[j]? = some s) :
    sliceGet full s ((offs[j + 1]?).getD full.length) =
      if frameRangeOk full offs j then some (frameSlice full offs j)
      else none := by
  have hgd : offs.getD j 0 = s := by
    rw [List.getD_eq_getElem?_getD, hj, Option.getD_some]
  rw [sliceGet, frameRangeOk, frameSlice, hgd]
  by_cases h1 : s ≤ (offs[j + 1]?).getD full.length <;>
    by_cases h2 : (offs[j + 1]?).getD full.length ≤ full.length <;>
    simp [h1, h2]

lemma framesAux_ok (full : List Nat) : ∀ (offs : List Nat) (idx : Nat),
    (∀ j, j < offs.length → frameRangeOk full offs j = true) →
    framesAux full idx offs =
      .ok ((List.range offs.length).map (frameSlice full offs)) := by
  intro offs
  induction offs with
  | nil => intro idx _; simp [framesAux]
  | cons start rest ih =>
    intro idx hv
    cases rest with
    | nil =>
      have h0 := hv 0 (by simp)
      have hs := sliceGet_rangeOk full [start] 0 start rfl
      rw [h0, if_pos rfl] at hs
      rw [framesAux]
      simp only [show ([start] : List Nat)[0 + 1]? = (none : Option Nat)
        from rfl, Option.getD_none] at hs
      rw [hs]
      rfl
    | cons next rest2 =>
      have h0 := hv 0 (by simp)
      have hs := sliceGet_rangeOk full (start :: next :: rest2) 0 start rfl
      rw [h0, if_pos rfl] at hs
      simp only [List.getElem?_cons_succ, List.getElem?_cons_zero,
        Option.getD_some] at hs
      rw [framesAux, hs]
      rw [ih (idx + 1) (fun j hj => by
        have := hv (j + 1) (by simpa using Nat.succ_lt_succ hj)
        rwa [frameRangeOk_cons] at this)]
      have hmap : List.map (frameSlice full (next :: rest2))
          (List.range (next :: rest2).length) =
          List.map ((frameSlice full (start :: next :: rest2)) ∘ (· + 1))
            (List.range (next :: rest2).length) :=
        List.map_congr_left (fun j _ => by
          simp only [Function.comp_apply, frameSlice_cons])
      rw [hmap]
      rw [show (start :: next :: rest2).length = (next :: rest2).length + 1
        from rfl, List.range_succ_eq_map, List.map_cons, List.map_map]
      rfl

/-- C6: frame extraction with a non-empty offset table: all fragments
are concatenated; frame i's byte range is [offsets[i], offsets[i+1]),
the final frame ending at the buffer length; a specific index returns
exactly that slice, no index returns all frames in table order, and a
computed range outside the buffer is a hard error (the
invalid-frame-range kind).  On the worked example, index 1 returns
"BBBB", no index returns the three frames in order, and index 5 fails
with the frame-not-found kind. -/
theorem c6_offset_table_frames (raw : RawPixelData) (i : Nat)
    (hoff : raw.offset_table ≠ []) :
    (∀ start, raw.offset_table[i]? = some start →
      frameRangeOk raw.fragments.flatten raw.offset_table i = true →
      extract_frames_from_raw_pixel_data raw (some i) =
        .ok [frameSlice raw.fragments.flatten raw.offset_table i]) ∧
    (∀ start, raw.offset_table[i]? = some start →
      frameRangeOk raw.fragments.flatten raw.offset_table i = false →
      extract_frames_from_raw_pixel_data raw (some i) =
        .error (.Other "Invalid frame range")) ∧
    ((∀ j, j < raw.offset_table.length →
        frameRangeOk raw.fragments.flatten raw.offset_table j = true) →
      extract_frames_from_raw_pixel_data raw none =
        .ok ((List.range raw.offset_table.length).map
          (frameSlice raw.fragments.flatten raw.offset_table))) ∧
    (extract_frames_from_raw_pixel_data exampleRaw (some 1) =
        .ok [[66, 66, 66, 66]] ∧
      extract_frames_from_raw_pixel_data exampleRaw none =
        .ok [[65, 65, 65, 65], [66, 66, 66, 66], [67, 67, 67, 67]] ∧
      extract_frames_from_raw_pixel_data exampleRaw (some 5) =
        .error (.Other "Frame 5 offset not found")) := by
  refine ⟨?_, ?_, ?_, rfl, rfl, rfl⟩
  · intro start h hok
    simp only [extract_frames_from_raw_pixel_data, if_pos hoff, h]
    rw [sliceGet_rangeOk _ _ _ _ h, hok, if_pos rfl]
  · intro start h hok
    simp only [extract_frames_from_raw_pixel_data, if_pos hoff, h]
    rw [sliceGet_rangeOk _ _ _ _ h, hok, if_neg (by decide)]
  · intro hall
    simp only [extract_frames_from_raw_pixel_data, if_pos hoff]
    exact framesAux_ok _ _ 0 hall

/-- Witness for `c6_offset_table_frames` at the worked example. -/
theorem c6_witness :
    extract_frames_from_raw_pixel_data exampleRaw (some 1) =
      .ok [[66, 66, 66, 66]] ∧
    extract_frames_from_raw_pixel_data exampleRaw none =
      .ok [[65, 65, 65, 65], [66, 66, 66, 66], [67, 67, 67, 67]] :=
  ⟨(c6_offset_table_frames exampleRaw 1 (by decide)).1 4 (by decide)
      (by decide),
   (c6_offset_table_frames exampleRaw 1 (by decide)).2.2.1 (by decide)⟩

/-- Fragments with no offset table, for the C7 witness. -/
def noTableRaw : RawPixelData :=
  { offset_table := [], fragments := [[1, 2], [3], [4, 5, 6]] }

/-- C7: frame extraction with an empty offset table: a specific index
returns that fragment verbatim, no index returns all fragments
unmodified, and in either mode an index beyond the table or fragment
count is a hard error of the frame-not-found kind, never a silent empty
result. -/
theorem c7_no_offset_table (raw : RawPixelData) (i : Nat) :
    (raw.offset_table = [] →
      ((∀ frame, raw.fragments[i]? = some frame →
          extract_frames_from_raw_pixel_data raw (some i) = .ok [frame]) ∧
       (raw.fragments[i]? = none →
          extract_frames_from_raw_pixel_data raw (some i) =
            .error (.Other ("Frame " ++ toString i ++ " not found"))) ∧
       extract_frames_from_raw_pixel_data raw none = .ok raw.fragments)) ∧
    (raw.offset_table ≠ [] → raw.offset_table.length ≤ i →
      extract_frames_from_raw_pixel_data raw (some i) =
        .error (.Other ("Frame " ++ toString i ++ " offset not found"))) := by
  constructor
  · intro hoff
    refine ⟨?_, ?_, ?_⟩
    · intro frame hf
      simp [extract_frames_from_raw_pixel_data, hoff, hf]
    · intro hf
      simp [extract_frames_from_raw_pixel_data, hoff, hf]
    · simp [extract_frames_from_raw_pixel_data, hoff]
  · intro hoff hlen
    have h : raw.offset_table[i]? = none := by
      rw [List.getElem?_eq_none hlen]
    simp only [extract_frames_from_raw_pixel_data, if_pos hoff, h]

/-- Witness for `c7_no_offset_table` at concrete fragment lists. -/
theorem c7_witness :
    extract_frames_from_raw_pixel_data noTableRaw (some 0) = .ok [[1, 2]] ∧
    extract_frames_from_raw_pixel_data noTableRaw none =
      .ok [[1, 2], [3], [4, 5, 6]] ∧
    extract_frames_from_raw_pixel_data noTableRaw (some 9) =
      .error (.Other "Frame 9 not found") ∧
    extract_frames_from_raw_pixel_data exampleRaw (some 7) =
      .error (.Other "Frame 7 offset not found") :=
  ⟨((c7_no_offset_table noTableRaw 0).1 rfl).1 [1, 2] rfl,
   ((c7_no_offset_table noTableRaw 0).1 rfl).2.2,
   ((c7_no_offset_table noTableRaw 9).1 rfl).2.1 rfl,
   (c7_no_offset_table exampleRaw 7).2 (by decide) (by decide)⟩

/-! ## The storage ingest pipeline (services/store.rs)

The relational store is modelled as in-memory tables (lists of rows)
with the SQL semantics of the insert/update statements of
models/{study,series,instance}.rs: an INSERT appends a row, an UPDATE
with a key in its WHERE clause rewrites exactly the listed columns of
every row whose key matches.  File storage is a path-keyed map.  The
happy path is modelled (transactions are not observed to fail); the
parse step is external, so a batch item arrives as its already-parsed
DTO triple together with the freshly minted path token the uuid call
would produce for it. -/

/-- `StoreStudyDto` (study.rs lines 9-18). -/
structure StoreStudyDto where
  study_date : String
  study_time : String
  accession_number : String
  referring_physician_name : String
  patient_name : String
  patient_id : String
  study_instance_uid : String
  study_id : String
deriving DecidableEq

/-- `StoreSeriesDto` (series.rs lines 10-17). -/
structure StoreSeriesDto where
  modality : String
  study_instance_uid : String
  series_instance_uid : String
  series_number : String
  performed_procedure_step_start_date : String
  performed_procedure_step_start_time : String
deriving DecidableEq

/-- `StoreInstanceDto` (instance.rs lines 11-18). -/
structure StoreInstanceDto where
  sop_class_uid : String
  sop_instance_uid : String
  study_instance_uid : String
  series_instance_uid : String
  instance_number : String
  path : String
deriving DecidableEq

/-- `StoreInstanceDto::with_path`. -/
def StoreInstanceDto.with_path (d : StoreInstanceDto) (path : String) :
    StoreInstanceDto :=
  { d with path := path }

/-- `study::is_exist`: a row with this study UID exists. -/
def study_is_exist (tbl : List StoreStudyDto) (uid : String) : Bool :=
  tbl.any (fun r => r.study_instance_uid == uid)

/-- `study::save` (study.rs lines 322-331): update when the key exists,
insert otherwise.  The update statement sets every non-key column. -/
def study_save (tbl : List StoreStudyDto) (dto : StoreStudyDto) :
    List StoreStudyDto :=
  if study_is_exist tbl dto.study_instance_uid then
    tbl.map (fun r =>
      if r.study_instance_uid == dto.study_instance_uid then
        { r with
          study_date := dto.study_date,
          study_time := dto.study_time,
          accession_number := dto.accession_number,
          referring_physician_name := dto.referring_physician_name,
          patient_name := dto.patient_name,
          patient_id := dto.patient_id,
          study_id := dto.study_id }
      else r)
  else tbl ++ [dto]

/-- `series::is_exist`. -/
def series_is_exist (tbl : List StoreSeriesDto) (uid : String) : Bool :=
  tbl.any (fun r => r.series_instance_uid == uid)

/-- `series::save` (series.rs lines 282-291).  The update statement sets
modality, series number and the procedure-step timestamps only. -/
def series_save (tbl : List StoreSeriesDto) (dto : StoreSeriesDto) :
    List StoreSeriesDto :=
  if series_is_exist tbl dto.series_instance_uid then
    tbl.map (fun r =>
      if r.series_instance_uid == dto.series_instance_uid then
        { r with
          modality := dto.modality,
          series_number := dto.series_number,
          performed_procedure_step_start_date :=
            dto.performed_procedure_step_start_date,
          performed_procedure_step_start_time :=
            dto.performed_procedure_step_start_time }
      else r)
  else tbl ++ [dto]

/-- `instance::is_exist`. -/
def instance_is_exist (tbl : List StoreInstanceDto) (uid : String) : Bool :=
  tbl.any (fun r => r.sop_instance_uid == uid)

/-- `instance::save` (instance.rs lines 294-303).  The update statement
sets every non-key column, the path included. -/
def instance_save (tbl : List StoreInstanceDto) (dto : StoreInstanceDto) :
    List StoreInstanceDto :=
  if instance_is_exist tbl dto.sop_instance_uid then
    tbl.map (fun r =>
      if r.sop_instance_uid == dto.sop_instance_uid then
        { r with
          sop_class_uid := dto.sop_class_uid,
          study_instance_uid := dto.study_instance_uid,
          series_instance_uid := dto.series_instance_uid,
          instance_number := dto.instance_number,
          path := dto.path }
      else r)
  else tbl ++ [dto]

/-- `instance::get_path_by_uid` (instance.rs lines 305-314). -/
def get_path_by_uid (tbl : List StoreInstanceDto) (uid : String) :
    Option String :=
  (tbl.find? (fun r => r.sop_instance_uid == uid)).map (fun r => r.path)

/-- Write-whole-file: replace the bytes at the path, or create it. -/
def file_write (files : List (String × List Nat)) (path : String)
    (bytes : List Nat) : List (String × List Nat) :=
  if files.any (fun f => f.1 == path) then
    files.map (fun f => if f.1 == path then (f.1, bytes) else f)
  else files ++ [(path, bytes)]

/-- The relational tables and the file store. -/
structure ServerState where
  studies : List StoreStudyDto
  series : List StoreSeriesDto
  instances : List StoreInstanceDto
  files : List (String × List Nat)
deriving DecidableEq

/-- A parsed DICOM object: its three extracted DTOs (the instance DTO's
path still empty, as `From` leaves it) and its raw bytes. -/
structure DicomObject where
  study : StoreStudyDto
  series : StoreSeriesDto
  instanceDto : StoreInstanceDto
  bytes : List Nat
deriving DecidableEq

/-- `FailedSopInstance` (store/response.rs lines 44-53). -/
structure FailedSopInstance where
  sop_class_uid : String
  sop_instance_uid : String
  failure_reason : String
deriving DecidableEq

/-- `ReferencedSopInstance` (store/response.rs lines 68-86). -/
structure ReferencedSopInstance where
  study_instance_uid : String
  series_instance_uid : String
  sop_class_uid : String
  sop_instance_uid : String
  retrieve_url : String
  warning_reason : Option String := none
deriving DecidableEq

/-- `response::Result` (store/response.rs lines 35-41). -/
inductive StoreResult where
  | Ok (item : ReferencedSopInstance)
  | Err (item : FailedSopInstance)
deriving DecidableEq

/-- `OtherFailure` (store/response.rs lines 107-110). -/
structure OtherFailure where
  failure_reason : String
deriving DecidableEq

/-- `StoreInstancesResponse` (store/response.rs lines 17-29). -/
structure StoreInstancesResponse where
  retrieve_url : String
  failed_sop_sequence : List FailedSopInstance
  referenced_sop_sequence : List ReferencedSopInstance
  other_failure_sequence : List OtherFailure
deriving DecidableEq

/-- The state after the main branch of `store_sop_instance` (store.rs
lines 85-126): look up any pre-existing path for the instance UID and
reuse it (else the fresh token), then save study, series and instance,
then write the payload under the path. -/
def store_object_state (st : ServerState) (obj : DicomObject)
    (fresh : String) : ServerState :=
  let path := (get_path_by_uid st.instances
    obj.instanceDto.sop_instance_uid).getD fresh
  let inst := obj.instanceDto.with_path path
  { studies := study_save st.studies obj.study,
    series := series_save st.series obj.series,
    instances := instance_save st.instances inst,
    files := file_write st.files (path ++ "/image.dcm") obj.bytes }

/-- The success item of `store_sop_instance` (store.rs lines 128-135). -/
def store_object_item (origin : String) (st : ServerState)
    (obj : DicomObject) (fresh : String) : ReferencedSopInstance :=
  let path := (get_path_by_uid st.instances
    obj.instanceDto.sop_instance_uid).getD fresh
  let inst := obj.instanceDto.with_path path
  { study_instance_uid := obj.study.study_instance_uid,
    series_instance_uid := obj.series.series_instance_uid,
    sop_class_uid := inst.sop_class_uid,
    sop_instance_uid := inst.sop_instance_uid,
    retrieve_url := origin ++ "/studies/" ++ obj.study.study_instance_uid ++
      "/series/" ++ obj.series.series_instance_uid ++ "/instances/" ++
      inst.sop_instance_uid,
    warning_reason := none }

/-- `store_sop_instance` (store.rs lines 54-136): reject on a study-UID
mismatch against the named target study with no write, else run the
write path. -/
def store_sop_instance (origin : String) (st : ServerState)
    (study_uid : Option String) (obj : DicomObject) (fresh : String) :
    ServerState × StoreResult :=
  match study_uid.filter
      (fun uid => obj.study.study_instance_uid != uid) with
  | some expected =>
    (st, .Err { sop_class_uid := obj.instanceDto.sop_class_uid,
                sop_instance_uid := obj.instanceDto.sop_instance_uid,
                failure_reason := "Study UID mismatch: expected " ++
                  expected ++ ", got " ++ obj.study.study_instance_uid })
  | none =>
    (store_object_state st obj fresh,
     .Ok (store_object_item origin st obj fresh))

/-- `common_retrieve_url` (store.rs lines 139-166): the origin extended
level by level while every stored item agrees on a non-empty UID. -/
def common_retrieve_url (origin : String)
    (refs : List ReferencedSopInstance) : String :=
  match refs with
  | [] => origin
  | first :: _ =>
    let common := fun (f : ReferencedSopInstance → String) =>
      refs.all (fun x => (f x != "") && (f x == f first))
    let url := origin
    if common (fun x => x.study_instance_uid) then
      let url := url ++ "/studies/" ++ first.study_instance_uid
      if common (fun x => x.series_instance_uid) then
        let url := url ++ "/series/" ++ first.series_instance_uid
        if common (fun x => x.sop_instance_uid) then
          url ++ "/instances/" ++ first.sop_instance_uid
        else url
      else url
    else url

/-- `store_sop_instances` (store.rs lines 19-51): each object of the
batch runs through `store_sop_instance` on the state the previous
objects produced, successes and rejections collected into separate
lists, and the common retrieval URL computed over the successes. -/
def store_sop_instances (origin : String) (st : ServerState)
    (study_uid : Option String) (objs : List (DicomObject × String)) :
    ServerState × StoreInstancesResponse :=
  let acc := objs.foldl
    (fun (acc : ServerState × List ReferencedSopInstance ×
        List FailedSopInstance) of =>
      match store_sop_instance origin acc.1 study_uid of.1 of.2 with
      | (st2, .Ok item) => (st2, acc.2.1 ++ [item], acc.2.2)
      | (st2, .Err item) => (st2, acc.2.1, acc.2.2 ++ [item]))
    (st, [], [])
  (acc.1,
   { retrieve_url := common_retrieve_url origin acc.2.1,
     failed_sop_sequence := acc.2.2,
     referenced_sop_sequence := acc.2.1,
     other_failure_sequence := [] })

/-- The claim's reading of the common retrieval URL, following its
words: the origin extended to the deepest hierarchy level at which all
successfully stored items agree on the UID, with no requirement that
the agreed UID be non-empty. -/
def common_retrieve_url_spec (origin : String)
    (refs : List ReferencedSopInstance) : String :=
  match refs with
  | [] => origin
  | first :: _ =>
    let agree := fun (f : ReferencedSopInstance → String) =>
      refs.all (fun x => f x == f first)
    let url := origin
    if agree (fun x => x.study_instance_uid) then
      let url := url ++ "/studies/" ++ first.study_instance_uid
      if agree (fun x => x.series_instance_uid) then
        let url := url ++ "/series/" ++ first.series_instance_uid
        if agree (fun x => x.sop_instance_uid) then
          url ++ "/instances/" ++ first.sop_instance_uid
        else url
      else url
    else url

/-! ### Lemmas about the ingest pipeline -/

lemma get_path_by_uid_absent (tbl : List StoreInstanceDto) (uid : String)
    (h : ∀ r ∈ tbl, r.sop_instance_uid ≠ uid) :
    get_path_by_uid tbl uid = none := by
  rw [get_path_by_uid, List.find?_eq_none.mpr, Option.map_none']
  intro r hr
  simpa using h r hr

lemma instance_save_absent (tbl : List StoreInstanceDto)
    (dto : StoreInstanceDto)
    (h : ∀ r ∈ tbl, r.sop_instance_uid ≠ dto.sop_instance_uid) :
    instance_save tbl dto = tbl ++ [dto] := by
  rw [instance_save, if_neg]
  simp only [instance_is_exist, List.any_eq_true, not_exists, not_and]
  intro r hr
  simpa using h r hr

lemma store_object_instances (st : ServerState) (obj : DicomObject)
    (fresh : String) :
    (store_object_state st obj fresh).instances =
      instance_save st.instances (obj.instanceDto.with_path
        ((get_path_by_uid st.instances
          obj.instanceDto.sop_instance_uid).getD fresh)) := rfl

/-- With no target study named, `store_sop_instance` runs the write
path. -/
lemma store_no_target (origin : String) (st : ServerState)
    (obj : DicomObject) (fresh : String) :
    store_sop_instance origin st none obj fresh =
      (store_object_state st obj fresh,
       .Ok (store_object_item origin st obj fresh)) := rfl

/-- With a matching target study, `store_sop_instance` runs the write
path. -/
lemma store_match_ok (origin : String) (st : ServerState) (t : String)
    (obj : DicomObject) (fresh : String)
    (h : obj.study.study_instance_uid = t) :
    store_sop_instance origin st (some t) obj fresh =
      (store_object_state st obj fresh,
       .Ok (store_object_item origin st obj fresh)) := by
  rw [store_sop_instance]
  simp [Option.filter, h]

/-- With a mismatching target study, `store_sop_instance` rejects the
object and leaves the state untouched: no database row and no file is
written. -/
lemma store_mismatch (origin : String) (st : ServerState) (t : String)
    (obj : DicomObject) (fresh : String)
    (h : obj.study.study_instance_uid ≠ t) :
    store_sop_instance origin st (some t) obj fresh =
      (st, .Err { sop_class_uid := obj.instanceDto.sop_class_uid,
                  sop_instance_uid := obj.instanceDto.sop_instance_uid,
                  failure_reason := "Study UID mismatch: expected " ++ t ++
                    ", got " ++ obj.study.study_instance_uid }) := by
  rw [store_sop_instance]
  simp [Option.filter, h]

/-- C8: ingesting the same instance UID twice is an update, not a
duplicate: starting from a state without that UID, after a first ingest
with fresh path token f1 and a second ingest of a possibly different
object with the same UID and fresh token f2, exactly one instance row
with that UID exists, its fields are the second ingest's, and its path
is the token assigned at the first ingest. -/
theorem c8_reingest_updates (origin : String) (st : ServerState)
    (o1 o2 : DicomObject) (f1 f2 : String)
    (huid : o2.instanceDto.sop_instance_uid =
      o1.instanceDto.sop_instance_uid)
    (habsent : ∀ r ∈ st.instances,
      r.sop_instance_uid ≠ o1.instanceDto.sop_instance_uid) :
    ((store_sop_instance origin
        (store_sop_instance origin st none o1 f1).1 none o2 f2).1).instances.filter
        (fun r => r.sop_instance_uid == o1.instanceDto.sop_instance_uid) =
      [o2.instanceDto.with_path f1] := by
  have hget1 : get_path_by_uid st.instances
      o1.instanceDto.sop_instance_uid = none :=
    get_path_by_uid_absent _ _ habsent
  have hinst1 : (store_object_state st o1 f1).instances =
      st.instances ++ [o1.instanceDto.with_path f1] := by
    simp only [store_object_state, hget1, Option.getD_none]
    exact instance_save_absent _ _ (fun r hr => habsent r hr)
  have hget2 : get_path_by_uid (store_object_state st o1 f1).instances
      o2.instanceDto.sop_instance_uid = some f1 := by
    rw [hinst1, huid, get_path_by_uid, List.find?_append,
      List.find?_eq_none.mpr (fun r hr => by simpa using habsent r hr)]
    simp [StoreInstanceDto.with_path]
  rw [store_no_target, store_no_target, store_object_instances, hget2,
    Option.getD_some, hinst1]
  rw [instance_save, if_pos]
  · rw [List.map_append, List.filter_append]
    have hmap1 : st.instances.map (fun r =>
        if r.sop_instance_uid ==
            (o2.instanceDto.with_path f1).sop_instance_uid then
          { r with
            sop_class_uid := (o2.instanceDto.with_path f1).sop_class_uid,
            study_instance_uid :=
              (o2.instanceDto.with_path f1).study_instance_uid,
            series_instance_uid :=
              (o2.instanceDto.with_path f1).series_instance_uid,
            instance_number :=
              (o2.instanceDto.with_path f1).instance_number,
            path := (o2.instanceDto.with_path f1).path }
        else r) = st.instances := by
      rw [show st.instances.map _ = st.instances.map id from
        List.map_congr_left (fun r hr => by
          rw [if_neg]
          · rfl
          · simpa [StoreInstanceDto.with_path, huid] using habsent r hr),
        List.map_id]
    rw [hmap1]
    rw [List.filter_eq_nil_iff.mpr (fun r hr => by
      simpa using habsent r hr)]
    simp only [List.map_cons, List.map_nil, List.nil_append]
    rw [if_pos (by simp [StoreInstanceDto.with_path, huid])]
    simp [StoreInstanceDto.with_path, huid]
  · simp [instance_is_exist, StoreInstanceDto.with_path, huid]

/-- C9: an object whose parsed study UID differs from the ingest
request's target study terminates as rejected with the mismatch reason
and no database or file write occurs for it (the state is returned
untouched); and in a batch of three objects whose second mismatches,
the response holds two entries in the success list and one entry in the
rejection list, and the final state is the state the two successful
objects alone produce — the rejected object affects nothing. -/
theorem c9_mismatch_rejection_batch (origin : String) (st : ServerState)
    (t : String) (o1 o2 o3 : DicomObject) (f1 f2 f3 : String)
    (h1 : o1.study.study_instance_uid = t)
    (h2 : o2.study.study_instance_uid ≠ t)
    (h3 : o3.study.study_instance_uid = t) :
    store_sop_instance origin st (some t) o2 f2 =
      (st, .Err { sop_class_uid := o2.instanceDto.sop_class_uid,
                  sop_instance_uid := o2.instanceDto.sop_instance_uid,
                  failure_reason := "Study UID mismatch: expected " ++ t ++
                    ", got " ++ o2.study.study_instance_uid }) ∧
    (store_sop_instances origin st (some t)
        [(o1, f1), (o2, f2), (o3, f3)]).2.referenced_sop_sequence.length =
      2 ∧
    (store_sop_instances origin st (some t)
        [(o1, f1), (o2, f2), (o3, f3)]).2.failed_sop_sequence.length = 1 ∧
    (store_sop_instances origin st (some t)
        [(o1, f1), (o2, f2), (o3, f3)]).1 =
      (store_sop_instances origin st (some t) [(o1, f1), (o3, f3)]).1 := by
  refine ⟨store_mismatch origin st t o2 f2 h2, ?_, ?_, ?_⟩ <;>
    simp only [store_sop_instances, List.foldl_cons, List.foldl_nil,
      store_match_ok origin _ t o1 f1 h1, store_mismatch origin _ t o2 f2 h2,
      store_match_ok origin _ t o3 f3 h3] <;>
    rfl

/-- C10: the claim omits the non-emptiness requirement: for a single
stored item whose study UID is the empty string (and non-empty series
and SOP instance UIDs), all items trivially agree on every UID, so the
claimed reading extends the URL to the instance level, while the code
stops at the origin because the agreed study UID is empty. -/
theorem c10_counterexample :
    common_retrieve_url "http://o"
        [{ study_instance_uid := "",
           series_instance_uid := "s",
           sop_class_uid := "c",
           sop_instance_uid := "i",
           retrieve_url := "u" }] = "http://o" ∧
    common_retrieve_url_spec "http://o"
        [{ study_instance_uid := "",
           series_instance_uid := "s",
           sop_class_uid := "c",
           sop_instance_uid := "i",
           retrieve_url := "u" }] =
      "http://o/studies//series/s/instances/i" ∧
    common_retrieve_url "http://o"
        [{ study_instance_uid := "",
           series_instance_uid := "s",
           sop_class_uid := "c",
           sop_instance_uid := "i",
           retrieve_url := "u" }] ≠
      common_retrieve_url_spec "http://o"
        [{ study_instance_uid := "",
           series_instance_uid := "s",
           sop_class_uid := "c",
           sop_instance_uid := "i",
           retrieve_url := "u" }] := by
  exact ⟨rfl, rfl, by decide⟩

/-- C10 (amended): the common retrieval URL is the origin extended to
the deepest hierarchy level (study, then series, then instance) at
which all successfully stored items agree on a non-empty UID; with no
successful item it is the origin alone. -/
theorem c10_common_url_nonempty_agreement (origin : String)
    (first : ReferencedSopInstance) (rest : List ReferencedSopInstance) :
    common_retrieve_url origin [] = origin ∧
    ((∀ x ∈ first :: rest, x.study_instance_uid ≠ "" ∧
        x.study_instance_uid = first.study_instance_uid) →
      ((∀ x ∈ first :: rest, x.series_instance_uid ≠ "" ∧
          x.series_instance_uid = first.series_instance_uid) →
        ((∀ x ∈ first :: rest, x.sop_instance_uid ≠ "" ∧
            x.sop_instance_uid = first.sop_instance_uid) →
          common_retrieve_url origin (first :: rest) =
            origin ++ "/studies/" ++ first.study_instance_uid ++
              "/series/" ++ first.series_instance_uid ++ "/instances/" ++
              first.sop_instance_uid) ∧
        (¬ (∀ x ∈ first :: rest, x.sop_instance_uid ≠ "" ∧
            x.sop_instance_uid = first.sop_instance_uid) →
          common_retrieve_url origin (first :: rest) =
            origin ++ "/studies/" ++ first.study_instance_uid ++
              "/series/" ++ first.series_instance_uid)) ∧
      (¬ (∀ x ∈ first :: rest, x.series_instance_uid ≠ "" ∧
          x.series_instance_uid = first.series_instance_uid) →
        common_retrieve_url origin (first :: rest) =
          origin ++ "/studies/" ++ first.study_instance_uid)) ∧
    (¬ (∀ x ∈ first :: rest, x.study_instance_uid ≠ "" ∧
        x.study_instance_uid = first.study_instance_uid) →
      common_retrieve_url origin (first :: rest) = origin) := by
  have key : ∀ (f : ReferencedSopInstance → String),
      ((first :: rest).all
        (fun x => (f x != "") && (f x == f first)) = true) ↔
      (∀ x ∈ first :: rest, f x ≠ "" ∧ f x = f first) := by
    intro f
    simp [List.all_eq_true, Bool.and_eq_true]
  refine ⟨rfl, ?_, ?_⟩
  · intro hst
    simp only [common_retrieve_url]
    rw [if_pos ((key _).mpr hst)]
    refine ⟨?_, ?_⟩
    · intro hse
      rw [if_pos ((key _).mpr hse)]
      refine ⟨?_, ?_⟩
      · intro hso
        rw [if_pos ((key _).mpr hso)]
      · intro hso
        rw [if_neg (fun hb => hso ((key _).mp hb))]
    · intro hse
      rw [if_neg (fun hb => hse ((key _).mp hb))]
  · intro hst
    simp only [common_retrieve_url]
    rw [if_neg (fun hb => hst ((key _).mp hb))]

/-- A sample object in study S1, instance I1. -/
def exObjA : DicomObject :=
  { study := ⟨"20200101", "t", "acc", "ref", "pn", "pid", "S1", "sid"⟩,
    series := ⟨"CT", "S1", "SE1", "1", "pd", "pt"⟩,
    instanceDto := ⟨"cls", "I1", "S1", "SE1", "1", ""⟩,
    bytes := [1, 2] }

/-- A re-ingest of instance I1 with a changed instance number. -/
def exObjB : DicomObject :=
  { study := ⟨"20200101", "t", "acc", "ref", "pn", "pid", "S1", "sid"⟩,
    series := ⟨"CT", "S1", "SE1", "1", "pd", "pt"⟩,
    instanceDto := ⟨"cls", "I1", "S1", "SE1", "2", ""⟩,
    bytes := [3, 4] }

/-- An object in a different study S2. -/
def exObjC : DicomObject :=
  { study := ⟨"20200102", "t", "acc", "ref", "pn", "pid", "S2", "sid"⟩,
    series := ⟨"MR", "S2", "SE9", "1", "pd", "pt"⟩,
    instanceDto := ⟨"cls", "I2", "S2", "SE9", "1", ""⟩,
    bytes := [5] }

/-- A further object in study S1, instance I3. -/
def exObjD : DicomObject :=
  { study := ⟨"20200101", "t", "acc", "ref", "pn", "pid", "S1", "sid"⟩,
    series := ⟨"CT", "S1", "SE2", "2", "pd", "pt"⟩,
    instanceDto := ⟨"cls", "I3", "S1", "SE2", "1", ""⟩,
    bytes := [6] }

/-- Witness for `c8_reingest_updates` at a concrete double ingest. -/
theorem c8_witness :
    ((store_sop_instance "o"
        (store_sop_instance "o" ⟨[], [], [], []⟩ none exObjA "F1").1 none
        exObjB "F2").1).instances.filter
        (fun r => r.sop_instance_uid ==
          exObjA.instanceDto.sop_instance_uid) =
      [exObjB.instanceDto.with_path "F1"] :=
  c8_reingest_updates "o" ⟨[], [], [], []⟩ exObjA exObjB "F1" "F2" rfl
    (by simp)

/-- Witness for `c9_mismatch_rejection_batch` at a concrete batch. -/
theorem c9_witness :
    store_sop_instance "o" ⟨[], [], [], []⟩ (some "S1") exObjC "F2" =
      (⟨[], [], [], []⟩,
       .Err { sop_class_uid := "cls", sop_instance_uid := "I2",
              failure_reason :=
                "Study UID mismatch: expected S1, got S2" }) ∧
    (store_sop_instances "o" ⟨[], [], [], []⟩ (some "S1")
        [(exObjA, "F1"), (exObjC, "F2"),
         (exObjD, "F3")]).2.referenced_sop_sequence.length = 2 := by
  have h := c9_mismatch_rejection_batch "o" ⟨[], [], [], []⟩ "S1" exObjA
    exObjC exObjD "F1" "F2" "F3" rfl (by decide) rfl
  exact ⟨h.1, h.2.1⟩

/-- A stored item in study S, series SE1. -/
def refA : ReferencedSopInstance := ⟨"S", "SE1", "c1", "i1", "u1", none⟩

/-- A stored item in study S, series SE2. -/
def refB : ReferencedSopInstance := ⟨"S", "SE2", "c2", "i2", "u2", none⟩

/-- Witness for `c10_common_url_nonempty_agreement`: two items agreeing
on the study UID only yield the study-level URL. -/
theorem c10_witness :
    common_retrieve_url "http://o" [refA, refB] = "http://o/studies/S" :=
  ((c10_common_url_nonempty_agreement "http://o" refA [refB]).2.1
    (by decide)).2 (by decide)

end Rustcoon
